import Mathlib

/-!
# apiRest-simple-con-db-remota-mysql: the CRUD handlers of `src/app.js`

A shallow embedding of the Express application in `src/app.js`: the logger,
the response-logging wrapper around `res.send`, the gateway `executeQuery`
and the fifteen route handlers of the three routers.

* JavaScript values are the inductive `JSValue`; numbers keep sign, mantissa
  and exponent, which is all the code looks at (truthiness and `=== 0`).
* Effects are explicit: a program is a function from a `World` (console
  output, calls made to the gateway and to the driver, the state of `res`)
  to a completion (normal or thrown) and the next `World`.
* What lives outside the repository is a parameter, collected in `Env`: the
  clock, the console (whose calls may throw), the `mysql2` pool, and
  `JSON.stringify` as used by Express when `res.json` serialises a body.
-/

namespace ApiRest

/-! ## JavaScript values -/

/-- A JavaScript number: NaN, an infinity, or `± mantissa × 2 ^ exponent`
(both zeros are the finite numbers of mantissa 0). -/
inductive JSNumber where
  | nan
  | inf (negative : Bool)
  | finite (negative : Bool) (mantissa : Nat) (exponent : Int)
  deriving DecidableEq, Repr

/-- The number a non-negative integer denotes. -/
def JSNumber.ofNat (n : Nat) : JSNumber := .finite false n 0

/-- Whether the number is `+0` or `-0`. -/
def JSNumber.isZero : JSNumber → Bool
  | .finite _ 0 _ => true
  | _ => false

/-- The values a parsed JSON body, a bound parameter or a row can hold. An
object is the list of its own enumerable properties in insertion order. -/
inductive JSValue where
  | undefined
  | null
  | bool (b : Bool)
  | num (n : JSNumber)
  | str (s : String)
  | arr (items : List JSValue)
  | obj (fields : List (String × JSValue))

namespace JSValue

/-- The number value of a non-negative integer. -/
def ofNat (n : Nat) : JSValue := .num (.ofNat n)

/-- ToBoolean: `undefined`, `null`, `false`, `±0`, `NaN` and `""` are falsy,
everything else (every array and object included) is truthy. -/
def truthy : JSValue → Bool
  | .undefined => false
  | .null => false
  | .bool b => b
  | .num .nan => false
  | .num n => !n.isZero
  | .str s => s != ""
  | .arr _ => true
  | .obj _ => true

/-- The `typeof` operator. -/
def typeOf : JSValue → String
  | .undefined => "undefined"
  | .null => "object"
  | .bool _ => "boolean"
  | .num _ => "number"
  | .str _ => "string"
  | .arr _ => "object"
  | .obj _ => "object"

/-- The comparison `v === 0`: true exactly for the numbers `+0` and `-0`. -/
def strictEqualsZero : JSValue → Bool
  | .num n => n.isZero
  | _ => false

/-- The operator `a || b`: `a` when it is truthy, otherwise `b`. -/
def or (a b : JSValue) : JSValue := if a.truthy then a else b

/-- The number of UTF-16 code units of a string, its JavaScript `length`. -/
def utf16Length (s : String) : Nat :=
  s.toList.foldl (fun n c => n + (if c.val < 0x10000 then 1 else 2)) 0

/-- `Array.isArray(v)`. -/
def isArray : JSValue → Bool
  | .arr _ => true
  | _ => false

/-- `Object.keys(v)` for a value that is not `undefined` or `null`: the
indices of an array, the property names of an object, the indices of a
string, nothing for a boolean or a number. -/
def objectKeys : JSValue → List String
  | .arr items => (List.range items.length).map toString
  | .obj fields => fields.map Prod.fst
  | .str s => (List.range (utf16Length s)).map toString
  | _ => []

/-- Whether Express's `res.send` hands the body to `res.json`: a boolean, a
number, an array or an object (the `boolean`, `number` and `object` cases of
its `typeof` switch, `null` apart). -/
def sentAsJson : JSValue → Bool
  | .bool _ => true
  | .num _ => true
  | .arr _ => true
  | .obj _ => true
  | _ => false

/-- Lookup of an own property in an object's property list. -/
def lookup (key : String) : List (String × JSValue) → JSValue
  | [] => .undefined
  | (k, v) :: rest => if k = key then v else lookup key rest

end JSValue

/-- An `Error` object: what the driver reports and what a `throw` carries. -/
structure JSError where
  name : String
  message : String
  stack : String
  deriving DecidableEq, Repr

/-- The `TypeError` raised by reading a property of `undefined` or `null`. -/
def typeError (message : String) : JSError :=
  ⟨"TypeError", message, "TypeError: " ++ message⟩

/-! ## The driver's results -/

/-- The `ResultSetHeader` that `mysql2` passes for INSERT, UPDATE and DELETE. -/
structure ResultSetHeader where
  fieldCount : Nat
  affectedRows : Nat
  insertId : Nat
  info : String
  serverStatus : Nat
  warningStatus : Nat
  changedRows : Nat
  deriving DecidableEq, Repr

/-- The second argument of a query callback: the row array of a SELECT, the
header of a data-changing statement, `undefined` (what `mysql2` passes along
with an error) or `null` (what `executeQuery` passes from its `catch`). -/
inductive DbResult where
  | undefined
  | null
  | rows (rs : List JSValue)
  | header (h : ResultSetHeader)

namespace DbResult

/-- The result as a JavaScript value, as `res.json` and the logger see it. -/
def toJS : DbResult → JSValue
  | .undefined => .undefined
  | .null => .null
  | .rows rs => .arr rs
  | .header h => .obj [("fieldCount", .ofNat h.fieldCount), ("affectedRows", .ofNat h.affectedRows),
      ("insertId", .ofNat h.insertId), ("info", .str h.info), ("serverStatus", .ofNat h.serverStatus),
      ("warningStatus", .ofNat h.warningStatus), ("changedRows", .ofNat h.changedRows)]

end DbResult

/-- How a call `db.query(sql, params, cb)` ends: the pool later invokes `cb`
once with `(error, results)`, or the call itself throws. -/
inductive DbOutcome where
  | completes (error : Option JSError) (results : DbResult)
  | throws (x : JSError)

/-! ## Console output -/

/-- One piece of a template literal: literal text or an interpolated value. -/
inductive Piece where
  | lit (text : String)
  | val (v : JSValue)

/-- The stream a console call writes to: `console.log` or `console.error`. -/
inductive Stream where
  | out
  | err
  deriving DecidableEq, Repr

/-- The second argument of a console call. -/
inductive LogArg where
  | value (v : JSValue)
  | error (e : JSError)

/-- One call of `console.log` or `console.error`: the formatted first
argument and the optional second one. -/
structure LogEntry where
  stream : Stream
  text : List Piece
  extra : Option LogArg

/-! ## The world and the environment -/

/-- A statement handed to the gateway or to the driver. -/
structure QueryCall where
  sql : String
  params : List JSValue

/-- One invocation of Express's own `res.send`: the status code at that
moment and the body it was given. -/
structure SendCall where
  status : Nat
  body : JSValue

/-- Everything the code can change or that can be observed of a run. -/
structure World where
  /-- how many times the clock was read -/
  ticks : Nat
  /-- the console calls that returned, oldest first -/
  console : List LogEntry
  /-- the calls of `executeQuery`, oldest first -/
  gatewayCalls : List QueryCall
  /-- the calls of `db.query`, oldest first -/
  dbCalls : List QueryCall
  /-- `res.statusCode` -/
  statusCode : Nat
  /-- `res.statusMessage` -/
  statusMessage : JSValue
  /-- the invocations of Express's own `res.send`, oldest first -/
  sent : List SendCall
  /-- exceptions that escaped a callback run by the event loop -/
  uncaught : List JSError

/-- The world in which a handler starts: a fresh response (status 200, no
status message yet), nothing logged, nothing sent. -/
def World.init : World :=
  { ticks := 0, console := [], gatewayCalls := [], dbCalls := [], statusCode := 200,
    statusMessage := .undefined, sent := [], uncaught := [] }

/-- What the repository takes from its runtime and its libraries. -/
structure Env where
  /-- `new Date().toISOString()` at the n-th reading of the clock -/
  now : Nat → String
  /-- the exception a console call throws, if it throws -/
  consoleFault : LogEntry → Option JSError
  /-- the outcome of `db.query(sql, params, cb)` on the pool -/
  db : String → List JSValue → DbOutcome
  /-- `JSON.stringify` as Express's `res.json` calls it (`none`: `undefined`) -/
  stringify : JSValue → Option String
  /-- the reason phrase Node writes for a status code -/
  statusText : Nat → String

/-- How a piece of code ends. -/
inductive Completion (α : Type) where
  | normal (value : α)
  | throw (x : JSError)

/-- A piece of code: from the world before it to its completion and the
world after it. -/
def Prog (α : Type) : Type := World → Completion α × World

namespace Prog

/-- Code that does nothing and yields `a`. -/
def ret {α : Type} (a : α) : Prog α := fun w => (.normal a, w)

/-- Sequencing: a throw of the first part skips the second. -/
def andThen {α β : Type} (p : Prog α) (f : α → Prog β) : Prog β := fun w =>
  match p w with
  | (.normal a, w1) => f a w1
  | (.throw x, w1) => (.throw x, w1)

/-- The statement `throw x`. -/
def raise {α : Type} (x : JSError) : Prog α := fun w => (.throw x, w)

/-- The statement `try { body } catch (error) { handler }`. -/
def tryCatch (body : Prog Unit) (handler : JSError → Prog Unit) : Prog Unit := fun w =>
  match body w with
  | (.normal a, w1) => (.normal a, w1)
  | (.throw x, w1) => handler x w1

/-- A callback the event loop runs later: what it throws does not reach the
code that registered it and is recorded as uncaught. -/
def deferred (callback : Prog Unit) : Prog Unit := fun w =>
  match callback w with
  | (.normal a, w1) => (.normal a, w1)
  | (.throw x, w1) => (.normal (), { w1 with uncaught := w1.uncaught ++ [x] })

end Prog

instance : Monad Prog where
  pure := Prog.ret
  bind := Prog.andThen

/-! ## Runtime primitives -/

/-- The expression `new Date().toISOString()`: one reading of the clock. -/
def isoNow (env : Env) : Prog String := fun w =>
  (.normal (env.now w.ticks), { w with ticks := w.ticks + 1 })

/-- One console call: it throws what the environment says, or its line is
written. -/
def consoleWrite (env : Env) (entry : LogEntry) : Prog Unit := fun w =>
  match env.consoleFault entry with
  | some x => (.throw x, w)
  | none => (.normal (), { w with console := w.console ++ [entry] })

/-- The call `console.log(text)` or `console.log(text, extra)`. -/
def console.log (env : Env) (text : List Piece) (extra : Option LogArg) : Prog Unit :=
  consoleWrite env ⟨.out, text, extra⟩

/-- The call `console.error(text, extra)`. -/
def console.error (env : Env) (text : List Piece) (extra : Option LogArg) : Prog Unit :=
  consoleWrite env ⟨.err, text, extra⟩

/-- The read `res.statusCode`. -/
def res.statusCode : Prog Nat := fun w => (.normal w.statusCode, w)

/-- The read `res.statusMessage`. -/
def res.statusMessage : Prog JSValue := fun w => (.normal w.statusMessage, w)

/-- Express's `res.status(code)`: it sets `res.statusCode`. -/
def res.status (code : Nat) : Prog Unit := fun w =>
  (.normal (), { w with statusCode := code })

/-- Express's own `res.send(body)` is entered: the invocation is recorded
with the status code of that moment. -/
def recordSend (body : JSValue) : Prog Unit := fun w =>
  (.normal (), { w with sent := w.sent ++ [⟨w.statusCode, body⟩] })

/-- Express's own `res.send(body)` on a body it does not serialise (a
string, `undefined` or `null`): the invocation is recorded, Node writes the
head with the current status code and its reason phrase, and the body goes
out. -/
def originalSendPlain (env : Env) (body : JSValue) : Prog Unit := fun w =>
  (.normal (), { w with sent := w.sent ++ [⟨w.statusCode, body⟩],
                        statusMessage := .str (env.statusText w.statusCode) })

/-- The statement reaches the driver: it is added to `dbCalls`. -/
def recordDbCall (sql : String) (params : List JSValue) : Prog Unit := fun w =>
  (.normal (), { w with dbCalls := w.dbCalls ++ [⟨sql, params⟩] })

/-- An observation of the model: a call of `executeQuery` is added to
`gatewayCalls`. -/
def recordGatewayCall (sql : String) (params : List JSValue) : Prog Unit := fun w =>
  (.normal (), { w with gatewayCalls := w.gatewayCalls ++ [⟨sql, params⟩] })

/-- The call `db.query(sql, params, cb)` of the pool: the statement reaches
the driver, which throws or has the event loop run `cb` later. No code of
`src/app.js` follows a `db.query` call in its function, so running the
deferred callback at once keeps the order of effects. -/
def dbQuery (env : Env) (sql : String) (params : List JSValue)
    (cb : Option JSError → DbResult → Prog Unit) : Prog Unit := do
  recordDbCall sql params
  match env.db sql params with
  | .throws x => Prog.raise x
  | .completes error results => Prog.deferred (cb error results)

/-- The destructuring read `const { key } = body` of one column name. -/
def destructure (body : JSValue) (key : String) : Prog JSValue :=
  match body with
  | .undefined => Prog.raise (typeError ("Cannot destructure property " ++ key ++ " of undefined"))
  | .null => Prog.raise (typeError ("Cannot destructure property " ++ key ++ " of null"))
  | .obj fields => pure (JSValue.lookup key fields)
  | _ => pure .undefined

namespace DbResult

/-- The read `results.length`. -/
def length : DbResult → Prog JSValue
  | .undefined => Prog.raise (typeError "Cannot read properties of undefined (reading length)")
  | .null => Prog.raise (typeError "Cannot read properties of null (reading length)")
  | .rows rs => pure (.ofNat rs.length)
  | .header _ => pure .undefined

/-- The read `results[0]`. -/
def first : DbResult → Prog JSValue
  | .undefined => Prog.raise (typeError "Cannot read properties of undefined (reading 0)")
  | .null => Prog.raise (typeError "Cannot read properties of null (reading 0)")
  | .rows [] => pure .undefined
  | .rows (r :: _) => pure r
  | .header _ => pure .undefined

/-- The read `result.affectedRows`. -/
def affectedRows : DbResult → Prog JSValue
  | .undefined => Prog.raise (typeError "Cannot read properties of undefined (reading affectedRows)")
  | .null => Prog.raise (typeError "Cannot read properties of null (reading affectedRows)")
  | .rows _ => pure .undefined
  | .header h => pure (.ofNat h.affectedRows)

/-- The read `result.insertId`. -/
def insertId : DbResult → Prog JSValue
  | .undefined => Prog.raise (typeError "Cannot read properties of undefined (reading insertId)")
  | .null => Prog.raise (typeError "Cannot read properties of null (reading insertId)")
  | .rows _ => pure .undefined
  | .header h => pure (.ofNat h.insertId)

end DbResult

/-! ## `logger` (app.js 11-56) -/

/-- The prefix `[${timestamp}] ` of every line. -/
def stamp (timestamp : String) : List Piece := [.lit "[", .val (.str timestamp), .lit "] "]

/-- The function `logger.log(message, data)`. -/
def logger.log (env : Env) (message : List Piece) (data : JSValue) : Prog Unit := do
  let timestamp ← isoNow env
  if data.truthy then
    console.log env (stamp timestamp ++ message) (some (.value data))
  else
    console.log env (stamp timestamp ++ message) none

/-- The function `logger.error(message, error)`. -/
def logger.error (env : Env) (message : List Piece) (error : JSError) : Prog Unit := do
  let timestamp ← isoNow env
  console.error env (stamp timestamp ++ [.lit "ERROR: "] ++ message) (some (.error error))

/-- The function `logger.response(res, body)`. -/
def logger.response (env : Env) (body : JSValue) : Prog Unit := do
  let timestamp ← isoNow env
  let statusCode ← res.statusCode
  let statusMessage ← res.statusMessage
  console.log env (stamp timestamp ++ [.lit "RESPONSE: ", .val (.ofNat statusCode), .lit " ",
    .val statusMessage]) none
  if body.truthy && body.typeOf == "object" && body.objectKeys.length > 0 then
    console.log env (stamp timestamp ++ [.lit "RESPONSE BODY:"]) (some (.value body))
  else
    pure ()

/-- The function `logger.query(sql, params)`. -/
def logger.query (env : Env) (sql : String) (params : List JSValue) : Prog Unit := do
  let timestamp ← isoNow env
  console.log env (stamp timestamp ++ [.lit "DB QUERY: ", .val (.str sql)]) none
  if (JSValue.arr params).truthy && (JSValue.arr params).isArray && params.length > 0 then
    console.log env (stamp timestamp ++ [.lit "DB PARAMS:"]) (some (.value (.arr params)))
  else
    pure ()

/-- The function `logger.queryResult(result)`. -/
def logger.queryResult (env : Env) (result : DbResult) : Prog Unit := do
  let timestamp ← isoNow env
  console.log env (stamp timestamp ++ [.lit "DB RESULT:"]) (some (.value result.toJS))

/-! ## The response-logging middleware (app.js 79-90) -/

/-- The body Express's `res.json` builds: the JSON text of the value, a
string, or `undefined` when `JSON.stringify` yields no text. -/
def jsonBody (env : Env) (value : JSValue) : JSValue :=
  match env.stringify value with
  | some text => .str text
  | none => .undefined

/-- The function the middleware builds around the `originalSend` it has
captured: `function (body)` of app.js 81-88. -/
def responseLoggingSend (env : Env) (originalSend : JSValue → Prog Unit) (body : JSValue) :
    Prog Unit := do
  Prog.tryCatch (logger.response env body)
    (fun error => logger.error env [.lit "Error en logger de respuesta:"] error)
  originalSend body

/-- Express's own `res.send(body)`, the `originalSend` the middleware
captures. A boolean, a number, an array or an object is handed to
`this.json`, which serialises it and calls `this.send` with the text; on the
response `this.send` is the function of the middleware, so the logging runs
again, and since the text is a string or `undefined` the original send it
then reaches is the plain one. Any other body goes out directly. -/
def originalSend (env : Env) (body : JSValue) : Prog Unit :=
  if body.sentAsJson then do
    recordSend body
    responseLoggingSend env (originalSendPlain env) (jsonBody env body)
  else
    originalSendPlain env body

/-- The function the middleware installs as `res.send`. -/
def res.send (env : Env) (body : JSValue) : Prog Unit :=
  responseLoggingSend env (originalSend env) body

/-- Express's `res.json(value)`: it serialises the value and passes the
text to `this.send`, which is the function installed by the middleware. -/
def res.json (env : Env) (value : JSValue) : Prog Unit :=
  res.send env (jsonBody env value)

/-! ## The gateway (app.js 130-145) -/

/-- The function `executeQuery(sql, params, callback)`. Its first step, the
record of the call in `gatewayCalls`, is an observation added by the model;
the rest is the body of the function. -/
def executeQuery (env : Env) (sql : String) (params : List JSValue)
    (callback : Option JSError → DbResult → Prog Unit) : Prog Unit := do
  recordGatewayCall sql params
  Prog.tryCatch
    (do
      logger.query env sql params
      dbQuery env sql params (fun error results => do
        match error with
        | some error => logger.error env [.lit "Error en consulta SQL:"] error
        | none => logger.queryResult env results
        callback error results))
    (fun error => do
      logger.error env [.lit "Error en executeQuery:"] error
      callback (some error) .null)

/-! ## Requests -/

/-- What a handler reads of `req`: the path parameter `req.params.id` (a
string cut from the URL by the router) and the parsed body `req.body`. -/
structure Request where
  id : String
  body : JSValue

/-! ## The routers (app.js 152-427) -/

/-- The handler `empleadosRouter.get("/")` (app.js 155-163). -/
def empleadosRouter.getAll (env : Env) (_req : Request) : Prog Unit :=
  executeQuery env "SELECT * FROM empleados" [] (fun error results =>
    match error with
    | some error => do
      res.status 500
      res.json env (.obj [("error", .str error.message)])
    | none => res.json env results.toJS)

/-- The handler `empleadosRouter.get("/:id")` (app.js 165-177). -/
def empleadosRouter.getById (env : Env) (req : Request) : Prog Unit :=
  let id := req.id
  executeQuery env "SELECT * FROM empleados WHERE id = ?" [.str id] (fun error results =>
    match error with
    | some error => do
      res.status 500
      res.json env (.obj [("error", .str error.message)])
    | none => do
      let length ← results.length
      if length.strictEqualsZero then
        logger.log env [.lit "Empleado no encontrado"] .undefined
        res.status 404
        res.json env (.obj [("mensaje", .str "Empleado no encontrado")])
      else
        let row ← results.first
        res.json env row)

/-- The handler `empleadosRouter.post("/")` (app.js 179-199). -/
def empleadosRouter.post (env : Env) (req : Request) : Prog Unit := do
  let nombre ← destructure req.body "nombre"
  let puesto ← destructure req.body "puesto"
  let salario ← destructure req.body "salario"
  if !nombre.truthy || !puesto.truthy || !salario.truthy then
    logger.log env [.lit "Validación fallida: Campos obligatorios faltantes para empleado"] .undefined
    res.status 400
    res.json env (.obj [("mensaje", .str "Todos los campos son obligatorios")])
  else
    executeQuery env "INSERT INTO empleados (nombre, puesto, salario) VALUES (?, ?, ?)"
      [nombre, puesto, salario] (fun error result =>
      match error with
      | some error => do
        res.status 500
        res.json env (.obj [("error", .str error.message)])
      | none => do
        let insertId ← result.insertId
        logger.log env [.lit "Empleado creado con ID: ", .val insertId] .undefined
        res.status 201
        res.json env (.obj [("mensaje", .str "Empleado agregado"), ("id", insertId)]))

/-- The handler `empleadosRouter.put("/:id")` (app.js 201-225). -/
def empleadosRouter.put (env : Env) (req : Request) : Prog Unit := do
  let id := req.id
  let nombre ← destructure req.body "nombre"
  let puesto ← destructure req.body "puesto"
  let salario ← destructure req.body "salario"
  if !nombre.truthy || !puesto.truthy || !salario.truthy then
    logger.log env [.lit "Validación fallida: Campos obligatorios faltantes para actualizar empleado"] .undefined
    res.status 400
    res.json env (.obj [("mensaje", .str "Todos los campos son obligatorios")])
  else
    executeQuery env "UPDATE empleados SET nombre = ?, puesto = ?, salario = ? WHERE id = ?"
      [nombre, puesto, salario, .str id] (fun error result =>
      match error with
      | some error => do
        res.status 500
        res.json env (.obj [("error", .str error.message)])
      | none => do
        let affectedRows ← result.affectedRows
        if affectedRows.strictEqualsZero then
          logger.log env [.lit "Empleado no encontrado: ID ", .val (.str id)] .undefined
          res.status 404
          res.json env (.obj [("mensaje", .str "Empleado no encontrado")])
        else
          logger.log env [.lit "Empleado actualizado: ID ", .val (.str id)] .undefined
          res.json env (.obj [("mensaje", .str "Empleado actualizado correctamente")]))

/-- The handler `empleadosRouter.delete("/:id")` (app.js 227-241). -/
def empleadosRouter.delete (env : Env) (req : Request) : Prog Unit :=
  let id := req.id
  executeQuery env "DELETE FROM empleados WHERE id = ?" [.str id] (fun error result =>
    match error with
    | some error => do
      res.status 500
      res.json env (.obj [("error", .str error.message)])
    | none => do
      let affectedRows ← result.affectedRows
      if affectedRows.strictEqualsZero then
        logger.log env [.lit "Empleado no encontrado: ID ", .val (.str id)] .undefined
        res.status 404
        res.json env (.obj [("mensaje", .str "Empleado no encontrado")])
      else
        logger.log env [.lit "Empleado eliminado: ID ", .val (.str id)] .undefined
        res.json env (.obj [("mensaje", .str "Empleado eliminado correctamente")]))

/-- The handler `clientesRouter.get("/")` (app.js 246-254). -/
def clientesRouter.getAll (env : Env) (_req : Request) : Prog Unit :=
  executeQuery env "SELECT * FROM clientes" [] (fun error results =>
    match error with
    | some error => do
      res.status 500
      res.json env (.obj [("error", .str error.message)])
    | none => res.json env results.toJS)

/-- The handler `clientesRouter.get("/:id")` (app.js 256-268). -/
def clientesRouter.getById (env : Env) (req : Request) : Prog Unit :=
  let id := req.id
  executeQuery env "SELECT * FROM clientes WHERE id_cliente = ?" [.str id] (fun error results =>
    match error with
    | some error => do
      res.status 500
      res.json env (.obj [("error", .str error.message)])
    | none => do
      let length ← results.length
      if length.strictEqualsZero then
        logger.log env [.lit "Cliente no encontrado"] .undefined
        res.status 404
        res.json env (.obj [("mensaje", .str "Cliente no encontrado")])
      else
        let row ← results.first
        res.json env row)

/-- The handler `clientesRouter.post("/")` (app.js 270-292). -/
def clientesRouter.post (env : Env) (req : Request) : Prog Unit := do
  let numero_identificacion ← destructure req.body "numero_identificacion"
  let nombre_cliente ← destructure req.body "nombre_cliente"
  let telefono_cliente ← destructure req.body "telefono_cliente"
  let email_cliente ← destructure req.body "email_cliente"
  if !numero_identificacion.truthy || !nombre_cliente.truthy || !telefono_cliente.truthy then
    logger.log env [.lit "Validación fallida: Campos obligatorios faltantes para cliente"] .undefined
    res.status 400
    res.json env (.obj [("mensaje", .str "Número de identificación, nombre y teléfono son obligatorios")])
  else
    executeQuery env "INSERT INTO clientes (numero_identificacion, nombre_cliente, telefono_cliente, email_cliente) VALUES (?, ?, ?, ?)"
      [numero_identificacion, nombre_cliente, telefono_cliente, email_cliente.or .null] (fun error result =>
      match error with
      | some error => do
        res.status 500
        res.json env (.obj [("error", .str error.message)])
      | none => do
        let insertId ← result.insertId
        logger.log env [.lit "Cliente creado con ID: ", .val insertId] .undefined
        res.status 201
        res.json env (.obj [("mensaje", .str "Cliente agregado"), ("id", insertId)]))

/-- The handler `clientesRouter.put("/:id")` (app.js 294-320). -/
def clientesRouter.put (env : Env) (req : Request) : Prog Unit := do
  let id := req.id
  let numero_identificacion ← destructure req.body "numero_identificacion"
  let nombre_cliente ← destructure req.body "nombre_cliente"
  let telefono_cliente ← destructure req.body "telefono_cliente"
  let email_cliente ← destructure req.body "email_cliente"
  if !numero_identificacion.truthy || !nombre_cliente.truthy || !telefono_cliente.truthy then
    logger.log env [.lit "Validación fallida: Campos obligatorios faltantes para actualizar cliente"] .undefined
    res.status 400
    res.json env (.obj [("mensaje", .str "Número de identificación, nombre y teléfono son obligatorios")])
  else
    executeQuery env "UPDATE clientes SET numero_identificacion = ?, nombre_cliente = ?, telefono_cliente = ?, email_cliente = ? WHERE id_cliente = ?"
      [numero_identificacion, nombre_cliente, telefono_cliente, email_cliente.or .null, .str id] (fun error result =>
      match error with
      | some error => do
        res.status 500
        res.json env (.obj [("error", .str error.message)])
      | none => do
        let affectedRows ← result.affectedRows
        if affectedRows.strictEqualsZero then
          logger.log env [.lit "Cliente no encontrado: ID ", .val (.str id)] .undefined
          res.status 404
          res.json env (.obj [("mensaje", .str "Cliente no encontrado")])
        else
          logger.log env [.lit "Cliente actualizado: ID ", .val (.str id)] .undefined
          res.json env (.obj [("mensaje", .str "Cliente actualizado correctamente")]))

/-- The handler `clientesRouter.delete("/:id")` (app.js 322-336). -/
def clientesRouter.delete (env : Env) (req : Request) : Prog Unit :=
  let id := req.id
  executeQuery env "DELETE FROM clientes WHERE id_cliente = ?" [.str id] (fun error result =>
    match error with
    | some error => do
      res.status 500
      res.json env (.obj [("error", .str error.message)])
    | none => do
      let affectedRows ← result.affectedRows
      if affectedRows.strictEqualsZero then
        logger.log env [.lit "Cliente no encontrado: ID ", .val (.str id)] .undefined
        res.status 404
        res.json env (.obj [("mensaje", .str "Cliente no encontrado")])
      else
        logger.log env [.lit "Cliente eliminado: ID ", .val (.str id)] .undefined
        res.json env (.obj [("mensaje", .str "Cliente eliminado correctamente")]))

/-- The handler `proveedoresRouter.get("/")` (app.js 341-349). -/
def proveedoresRouter.getAll (env : Env) (_req : Request) : Prog Unit :=
  executeQuery env "SELECT * FROM proveedores" [] (fun error results =>
    match error with
    | some error => do
      res.status 500
      res.json env (.obj [("error", .str error.message)])
    | none => res.json env results.toJS)

/-- The handler `proveedoresRouter.get("/:id")` (app.js 351-363). -/
def proveedoresRouter.getById (env : Env) (req : Request) : Prog Unit :=
  let id := req.id
  executeQuery env "SELECT * FROM proveedores WHERE id_proveedor = ?" [.str id] (fun error results =>
    match error with
    | some error => do
      res.status 500
      res.json env (.obj [("error", .str error.message)])
    | none => do
      let length ← results.length
      if length.strictEqualsZero then
        logger.log env [.lit "Proveedor no encontrado"] .undefined
        res.status 404
        res.json env (.obj [("mensaje", .str "Proveedor no encontrado")])
      else
        let row ← results.first
        res.json env row)

/-- The handler `proveedoresRouter.post("/")` (app.js 365-385). -/
def proveedoresRouter.post (env : Env) (req : Request) : Prog Unit := do
  let numero_identificacion ← destructure req.body "numero_identificacion"
  let nombre_proveedor ← destructure req.body "nombre_proveedor"
  let contacto_principal ← destructure req.body "contacto_principal"
  let telefono_proveedor ← destructure req.body "telefono_proveedor"
  if !numero_identificacion.truthy || !nombre_proveedor.truthy || !contacto_principal.truthy || !telefono_proveedor.truthy then
    logger.log env [.lit "Validación fallida: Campos obligatorios faltantes para proveedor"] .undefined
    res.status 400
    res.json env (.obj [("mensaje", .str "Todos los campos son obligatorios")])
  else
    executeQuery env "INSERT INTO proveedores (numero_identificacion, nombre_proveedor, contacto_principal, telefono_proveedor) VALUES (?, ?, ?, ?)"
      [numero_identificacion, nombre_proveedor, contacto_principal, telefono_proveedor] (fun error result =>
      match error with
      | some error => do
        res.status 500
        res.json env (.obj [("error", .str error.message)])
      | none => do
        let insertId ← result.insertId
        logger.log env [.lit "Proveedor creado con ID: ", .val insertId] .undefined
        res.status 201
        res.json env (.obj [("mensaje", .str "Proveedor agregado"), ("id", insertId)]))

/-- The handler `proveedoresRouter.put("/:id")` (app.js 387-411). -/
def proveedoresRouter.put (env : Env) (req : Request) : Prog Unit := do
  let id := req.id
  let numero_identificacion ← destructure req.body "numero_identificacion"
  let nombre_proveedor ← destructure req.body "nombre_proveedor"
  let contacto_principal ← destructure req.body "contacto_principal"
  let telefono_proveedor ← destructure req.body "telefono_proveedor"
  if !numero_identificacion.truthy || !nombre_proveedor.truthy || !contacto_principal.truthy || !telefono_proveedor.truthy then
    logger.log env [.lit "Validación fallida: Campos obligatorios faltantes para actualizar proveedor"] .undefined
    res.status 400
    res.json env (.obj [("mensaje", .str "Todos los campos son obligatorios")])
  else
    executeQuery env "UPDATE proveedores SET numero_identificacion = ?, nombre_proveedor = ?, contacto_principal = ?, telefono_proveedor = ? WHERE id_proveedor = ?"
      [numero_identificacion, nombre_proveedor, contacto_principal, telefono_proveedor, .str id] (fun error result =>
      match error with
      | some error => do
        res.status 500
        res.json env (.obj [("error", .str error.message)])
      | none => do
        let affectedRows ← result.affectedRows
        if affectedRows.strictEqualsZero then
          logger.log env [.lit "Proveedor no encontrado: ID ", .val (.str id)] .undefined
          res.status 404
          res.json env (.obj [("mensaje", .str "Proveedor no encontrado")])
        else
          logger.log env [.lit "Proveedor actualizado: ID ", .val (.str id)] .undefined
          res.json env (.obj [("mensaje", .str "Proveedor actualizado correctamente")]))

/-- The handler `proveedoresRouter.delete("/:id")` (app.js 413-427). -/
def proveedoresRouter.delete (env : Env) (req : Request) : Prog Unit :=
  let id := req.id
  executeQuery env "DELETE FROM proveedores WHERE id_proveedor = ?" [.str id] (fun error result =>
    match error with
    | some error => do
      res.status 500
      res.json env (.obj [("error", .str error.message)])
    | none => do
      let affectedRows ← result.affectedRows
      if affectedRows.strictEqualsZero then
        logger.log env [.lit "Proveedor no encontrado: ID ", .val (.str id)] .undefined
        res.status 404
        res.json env (.obj [("mensaje", .str "Proveedor no encontrado")])
      else
        logger.log env [.lit "Proveedor eliminado: ID ", .val (.str id)] .undefined
        res.json env (.obj [("mensaje", .str "Proveedor eliminado correctamente")]))

/-! ## Mounting (app.js 430-432) -/

/-- The three routers mounted on the application. -/
inductive Resource where
  | empleados
  | clientes
  | proveedores
  deriving DecidableEq, Repr

/-- The five routes of a router: `GET /`, `GET /:id`, `POST /`, `PUT /:id`
and `DELETE /:id`. -/
inductive Operation where
  | list
  | get
  | create
  | update
  | delete
  deriving DecidableEq, Repr

/-- The handler Express dispatches to for a resource and a route. -/
def route : Resource → Operation → Env → Request → Prog Unit
  | .empleados, .list => empleadosRouter.getAll
  | .empleados, .get => empleadosRouter.getById
  | .empleados, .create => empleadosRouter.post
  | .empleados, .update => empleadosRouter.put
  | .empleados, .delete => empleadosRouter.delete
  | .clientes, .list => clientesRouter.getAll
  | .clientes, .get => clientesRouter.getById
  | .clientes, .create => clientesRouter.post
  | .clientes, .update => clientesRouter.put
  | .clientes, .delete => clientesRouter.delete
  | .proveedores, .list => proveedoresRouter.getAll
  | .proveedores, .get => proveedoresRouter.getById
  | .proveedores, .create => proveedoresRouter.post
  | .proveedores, .update => proveedoresRouter.put
  | .proveedores, .delete => proveedoresRouter.delete


/-! ## Predicates on environments and programs -/

/-- The console of the environment never throws, as Node's console does not
on the strings and plain data this application prints. -/
def Env.reliableConsole (env : Env) : Prop := ∀ entry, env.consoleFault entry = none

/-- A program that leaves the list of gateway calls as it found it. -/
def KeepsGateway {α : Type} (p : Prog α) : Prop := ∀ w, (p w).2.gatewayCalls = w.gatewayCalls

/-- A program that leaves both call lists as it found them. -/
def KeepsCalls {α : Type} (p : Prog α) : Prop :=
  ∀ w, (p w).2.gatewayCalls = w.gatewayCalls ∧ (p w).2.dbCalls = w.dbCalls

/-- A program that leaves what was sent and the status code as it found them. -/
def KeepsResponse {α : Type} (p : Prog α) : Prop :=
  ∀ w, (p w).2.sent = w.sent ∧ (p w).2.statusCode = w.statusCode

/-- The lines `logger.query` writes when the console works. -/
def queryLines (timestamp sql : String) (params : List JSValue) : List LogEntry :=
  ⟨.out, stamp timestamp ++ [.lit "DB QUERY: ", .val (.str sql)], none⟩ ::
    (if params.length > 0 then
      [⟨.out, stamp timestamp ++ [.lit "DB PARAMS:"], some (.value (.arr params))⟩]
    else [])

/-- The line the completion callback of `executeQuery` writes. -/
def completionLine (timestamp : String) (error : Option JSError) (results : DbResult) : LogEntry :=
  match error with
  | some error => ⟨.err, stamp timestamp ++ [.lit "ERROR: "] ++ [.lit "Error en consulta SQL:"], some (.error error)⟩
  | none => ⟨.out, stamp timestamp ++ [.lit "DB RESULT:"], some (.value results.toJS)⟩

/-- The lines `logger.response` writes when the console works. -/
def responseLines (timestamp : String) (statusCode : Nat) (statusMessage body : JSValue) : List LogEntry :=
  ⟨.out, stamp timestamp ++ [.lit "RESPONSE: ", .val (.ofNat statusCode), .lit " ", .val statusMessage], none⟩ ::
    (if body.truthy && body.typeOf == "object" && body.objectKeys.length > 0 then
      [⟨.out, stamp timestamp ++ [.lit "RESPONSE BODY:"], some (.value body)⟩]
    else [])

/-! ## Vocabulary of the statements -/

/-- The fields each resource's create and update handlers test for truthiness. -/
def requiredFields : Resource → List String
  | .empleados => ["nombre", "puesto", "salario"]
  | .clientes => ["numero_identificacion", "nombre_cliente", "telefono_cliente"]
  | .proveedores =>
    ["numero_identificacion", "nombre_proveedor", "contacto_principal", "telefono_proveedor"]

/-- The text of the 400 response of each resource. -/
def validationMessage : Resource → String
  | .empleados => "Todos los campos son obligatorios"
  | .clientes => "Número de identificación, nombre y teléfono son obligatorios"
  | .proveedores => "Todos los campos son obligatorios"

/-- The text of the 404 response of each resource. -/
def notFoundMessage : Resource → String
  | .empleados => "Empleado no encontrado"
  | .clientes => "Cliente no encontrado"
  | .proveedores => "Proveedor no encontrado"

/-- The confirmation text of a create. -/
def createdMessage : Resource → String
  | .empleados => "Empleado agregado"
  | .clientes => "Cliente agregado"
  | .proveedores => "Proveedor agregado"

/-- The confirmation text of an update and of a delete. -/
def confirmationMessage : Resource → Operation → String
  | .empleados, .delete => "Empleado eliminado correctamente"
  | .clientes, .delete => "Cliente eliminado correctamente"
  | .proveedores, .delete => "Proveedor eliminado correctamente"
  | .empleados, _ => "Empleado actualizado correctamente"
  | .clientes, _ => "Cliente actualizado correctamente"
  | .proveedores, _ => "Proveedor actualizado correctamente"

/-- A body that passes validation: an object whose required fields are all
truthy. -/
def validBody (r : Resource) : JSValue → Bool
  | .obj fields => (requiredFields r).all (fun key => (JSValue.lookup key fields).truthy)
  | _ => false

/-- Whether the route reads the request body. -/
def Operation.readsBody : Operation → Bool
  | .create => true
  | .update => true
  | _ => false

/-- The error the callback of `executeQuery` receives for an outcome of the
driver, when the console works: the driver's own error, or what the driver
threw. -/
def DbOutcome.deliveredError : DbOutcome → Option JSError
  | .completes error _ => error
  | .throws x => some x

/-- The status codes of the responses sent in a run. -/
def statuses (out : Completion Unit × World) : List Nat := out.2.sent.map (fun call => call.status)

/-- An environment for examples: a console that works, a fixed clock, and a
serialiser that yields a fixed text. -/
def sampleEnv (db : String → List JSValue → DbOutcome) : Env :=
  { now := fun _ => "2024-01-01T00:00:00.000Z", consoleFault := fun _ => none, db := db,
    stringify := fun _ => some "json", statusText := fun _ => "" }

/-- The statement text of each route, as written in its handler. -/
def statement : Resource → Operation → String
  | .empleados, .list => "SELECT * FROM empleados"
  | .empleados, .get => "SELECT * FROM empleados WHERE id = ?"
  | .empleados, .create => "INSERT INTO empleados (nombre, puesto, salario) VALUES (?, ?, ?)"
  | .empleados, .update => "UPDATE empleados SET nombre = ?, puesto = ?, salario = ? WHERE id = ?"
  | .empleados, .delete => "DELETE FROM empleados WHERE id = ?"
  | .clientes, .list => "SELECT * FROM clientes"
  | .clientes, .get => "SELECT * FROM clientes WHERE id_cliente = ?"
  | .clientes, .create => "INSERT INTO clientes (numero_identificacion, nombre_cliente, telefono_cliente, email_cliente) VALUES (?, ?, ?, ?)"
  | .clientes, .update => "UPDATE clientes SET numero_identificacion = ?, nombre_cliente = ?, telefono_cliente = ?, email_cliente = ? WHERE id_cliente = ?"
  | .clientes, .delete => "DELETE FROM clientes WHERE id_cliente = ?"
  | .proveedores, .list => "SELECT * FROM proveedores"
  | .proveedores, .get => "SELECT * FROM proveedores WHERE id_proveedor = ?"
  | .proveedores, .create => "INSERT INTO proveedores (numero_identificacion, nombre_proveedor, contacto_principal, telefono_proveedor) VALUES (?, ?, ?, ?)"
  | .proveedores, .update => "UPDATE proveedores SET numero_identificacion = ?, nombre_proveedor = ?, contacto_principal = ?, telefono_proveedor = ? WHERE id_proveedor = ?"
  | .proveedores, .delete => "DELETE FROM proveedores WHERE id_proveedor = ?"

/-- The number of `?` placeholders in a statement text. -/
def placeholders (sql : String) : Nat := (sql.toList.filter (fun c => c == '?')).length

/-- Whether the route has the path parameter `:id`. -/
def Operation.hasId : Operation → Bool
  | .get => true
  | .update => true
  | .delete => true
  | _ => false

/-- The values a create or an update binds to the columns of its statement,
in the order of the columns. -/
def boundValues (r : Resource) (fields : List (String × JSValue)) : List JSValue :=
  match r with
  | .empleados =>
    [JSValue.lookup "nombre" fields, JSValue.lookup "puesto" fields,
      JSValue.lookup "salario" fields]
  | .clientes =>
    [JSValue.lookup "numero_identificacion" fields, JSValue.lookup "nombre_cliente" fields,
      JSValue.lookup "telefono_cliente" fields,
      (JSValue.lookup "email_cliente" fields).or .null]
  | .proveedores =>
    [JSValue.lookup "numero_identificacion" fields, JSValue.lookup "nombre_proveedor" fields,
      JSValue.lookup "contacto_principal" fields, JSValue.lookup "telefono_proveedor" fields]

/-- A callback for examples: it answers with its two arguments, written
out directly, so that each invocation shows in `sent`. -/
def probe (env : Env) : Option JSError → DbResult → Prog Unit := fun error results =>
  originalSendPlain env (.arr [match error with
    | some e => .str e.message
    | none => .null, results.toJS])

/-- An exception for examples. -/
def boom : JSError := ⟨"Error", "boom", "Error: boom"⟩

/-- An environment whose console throws on every call. -/
def brokenConsoleEnv (db : String → List JSValue → DbOutcome) : Env :=
  { sampleEnv db with consoleFault := fun _ => some boom }

/-- An environment whose `console.log` throws on every call while
`console.error` works. -/
def brokenLogEnv (db : String → List JSValue → DbOutcome) : Env :=
  { sampleEnv db with consoleFault := fun entry =>
      match entry.stream with
      | .out => some boom
      | .err => none }

/-- An environment whose console throws when it is given a row array to
print and works otherwise. -/
def brokenInspectEnv (db : String → List JSValue → DbOutcome) : Env :=
  { sampleEnv db with consoleFault := fun entry =>
      match entry.extra with
      | some (.value (.arr (_ :: _))) => some boom
      | _ => none }

/-- A store for examples in which every statement succeeds with the same
result. -/
def dbAnswering (results : DbResult) : String → List JSValue → DbOutcome :=
  fun _ _ => .completes none results

/-- A store for examples in which every statement fails with the same error. -/
def dbFailing (e : JSError) : String → List JSValue → DbOutcome :=
  fun _ _ => .completes (some e) .undefined

/-- Whether only `console.error` is known to work. -/
def Env.reliableConsoleError (env : Env) : Prop :=
  ∀ entry, entry.stream = .err → env.consoleFault entry = none

/-- Whether the value is `undefined` or `null`. -/
def JSValue.isNullish : JSValue → Bool
  | .undefined => true
  | .null => true
  | _ => false

/-- The properties of a body that is an object; any other body has none. -/
def fieldsOf : JSValue → List (String × JSValue)
  | .obj fields => fields
  | _ => []

/-- The parameter list of each route's statement for a request: nothing for a
list, the path id for a get and a delete, the bound values for a create,
the bound values and then the path id for an update. -/
def boundParams (r : Resource) (op : Operation) (req : Request) : List JSValue :=
  match op with
  | .list => []
  | .get => [.str req.id]
  | .delete => [.str req.id]
  | .create => boundValues r (fieldsOf req.body)
  | .update => boundValues r (fieldsOf req.body) ++ [.str req.id]

/-- An employee body for examples whose salary is the number 0. -/
def zeroSalaryBody : List (String × JSValue) :=
  [("nombre", .str "Ana"), ("puesto", .str "Dev"), ("salario", .ofNat 0)]

/-- A valid employee body for examples. -/
def anaBody : List (String × JSValue) :=
  [("nombre", .str "Ana"), ("puesto", .str "Dev"), ("salario", .ofNat 5000)]

/-- A valid client body for examples, without `email_cliente`. -/
def clientBody : List (String × JSValue) :=
  [("numero_identificacion", .str "123"), ("nombre_cliente", .str "X"),
    ("telefono_cliente", .str "555")]

/-- A driver error for examples. -/
def timedOut : JSError := ⟨"Error", "connect ETIMEDOUT", "Error: connect ETIMEDOUT"⟩

/-- A header for examples: one row affected, generated key 42. -/
def insertedHeader : ResultSetHeader :=
  { fieldCount := 0, affectedRows := 1, insertId := 42, info := "", serverStatus := 2,
    warningStatus := 0, changedRows := 0 }

/-- A row for examples. -/
def anaRow : JSValue := .obj (("id", .ofNat 1) :: anaBody)

/-- A response body for examples: the JSON text of a confirmation. -/
def jsonTextBody : JSValue := .str "\x7b\"mensaje\":\"Empleado agregado\",\"id\":1\x7d"

/-! ## Theorems -/

/-! ### Running programs -/

theorem Prog.bind_run {α β : Type} (p : Prog α) (f : α → Prog β) (w : World) :
    (p >>= f) w = match p w with
      | (.normal a, w1) => f a w1
      | (.throw x, w1) => (.throw x, w1) := rfl

theorem Prog.pure_run {α : Type} (a : α) (w : World) :
    (pure a : Prog α) w = (.normal a, w) := rfl

/-! ### Programs that leave the call lists alone -/

theorem keepsCalls_gateway {α : Type} {p : Prog α} (h : KeepsCalls p) : KeepsGateway p :=
  fun w => (h w).1

theorem keepsGateway_pure {α : Type} (a : α) : KeepsGateway (pure a : Prog α) := fun _ => rfl

theorem keepsGateway_bind {α β : Type} {p : Prog α} {f : α → Prog β} (hp : KeepsGateway p)
    (hf : ∀ a, KeepsGateway (f a)) : KeepsGateway (p >>= f) := by
  intro w
  have h1 := hp w
  rw [Prog.bind_run]
  rcases hpw : p w with ⟨c, w1⟩
  rw [hpw] at h1
  cases c with
  | normal a => exact (hf a w1).trans h1
  | throw x => exact h1

theorem keepsGateway_tryCatch {body : Prog Unit} {handler : JSError → Prog Unit}
    (hb : KeepsGateway body) (hh : ∀ x, KeepsGateway (handler x)) :
    KeepsGateway (Prog.tryCatch body handler) := by
  intro w
  have h1 := hb w
  unfold Prog.tryCatch
  rcases hpw : body w with ⟨c, w1⟩
  rw [hpw] at h1
  cases c with
  | normal a => exact h1
  | throw x => exact (hh x w1).trans h1

theorem keepsGateway_deferred {p : Prog Unit} (hp : KeepsGateway p) :
    KeepsGateway (Prog.deferred p) := by
  intro w
  have h1 := hp w
  unfold Prog.deferred
  rcases hpw : p w with ⟨c, w1⟩
  rw [hpw] at h1
  cases c with
  | normal a => simpa using h1
  | throw x => simpa using h1

theorem keepsCalls_pure {α : Type} (a : α) : KeepsCalls (pure a : Prog α) := fun _ => ⟨rfl, rfl⟩

theorem keepsCalls_bind {α β : Type} {p : Prog α} {f : α → Prog β} (hp : KeepsCalls p)
    (hf : ∀ a, KeepsCalls (f a)) : KeepsCalls (p >>= f) := by
  intro w
  have h1 := hp w
  rw [Prog.bind_run]
  rcases hpw : p w with ⟨c, w1⟩
  rw [hpw] at h1
  cases c with
  | normal a => exact ⟨(hf a w1).1.trans h1.1, (hf a w1).2.trans h1.2⟩
  | throw x => exact h1

theorem keepsCalls_tryCatch {body : Prog Unit} {handler : JSError → Prog Unit}
    (hb : KeepsCalls body) (hh : ∀ x, KeepsCalls (handler x)) :
    KeepsCalls (Prog.tryCatch body handler) := by
  intro w
  have h1 := hb w
  unfold Prog.tryCatch
  rcases hpw : body w with ⟨c, w1⟩
  rw [hpw] at h1
  cases c with
  | normal a => exact h1
  | throw x => exact ⟨(hh x w1).1.trans h1.1, (hh x w1).2.trans h1.2⟩

theorem isoNow_keeps (env : Env) : KeepsCalls (isoNow env) := fun _ => ⟨rfl, rfl⟩

theorem consoleWrite_keeps (env : Env) (entry : LogEntry) : KeepsCalls (consoleWrite env entry) := by
  intro w
  unfold consoleWrite
  cases env.consoleFault entry <;> exact ⟨rfl, rfl⟩

theorem res.status_keeps (code : Nat) : KeepsCalls (res.status code) := fun _ => ⟨rfl, rfl⟩

theorem originalSendPlain_keeps (env : Env) (body : JSValue) :
    KeepsCalls (originalSendPlain env body) :=
  fun _ => ⟨rfl, rfl⟩

theorem logger.log_keeps (env : Env) (message : List Piece) (data : JSValue) :
    KeepsCalls (logger.log env message data) := by
  unfold logger.log
  refine keepsCalls_bind (isoNow_keeps env) (fun t => ?_)
  split <;> exact consoleWrite_keeps env _

theorem logger.error_keeps (env : Env) (message : List Piece) (error : JSError) :
    KeepsCalls (logger.error env message error) := by
  unfold logger.error
  exact keepsCalls_bind (isoNow_keeps env) (fun t => consoleWrite_keeps env _)

theorem logger.response_keeps (env : Env) (body : JSValue) :
    KeepsCalls (logger.response env body) := by
  unfold logger.response
  refine keepsCalls_bind (isoNow_keeps env) (fun t => ?_)
  refine keepsCalls_bind (fun _ => ⟨rfl, rfl⟩) (fun c => ?_)
  refine keepsCalls_bind (fun _ => ⟨rfl, rfl⟩) (fun m => ?_)
  refine keepsCalls_bind (consoleWrite_keeps env _) (fun _ => ?_)
  split
  · exact consoleWrite_keeps env _
  · exact keepsCalls_pure _

theorem logger.query_keeps (env : Env) (sql : String) (params : List JSValue) :
    KeepsCalls (logger.query env sql params) := by
  unfold logger.query
  refine keepsCalls_bind (isoNow_keeps env) (fun t => ?_)
  refine keepsCalls_bind (consoleWrite_keeps env _) (fun _ => ?_)
  split
  · exact consoleWrite_keeps env _
  · exact keepsCalls_pure _

theorem logger.queryResult_keeps (env : Env) (result : DbResult) :
    KeepsCalls (logger.queryResult env result) := by
  unfold logger.queryResult
  exact keepsCalls_bind (isoNow_keeps env) (fun t => consoleWrite_keeps env _)

theorem responseLoggingSend_keeps (env : Env) (originalSend : JSValue → Prog Unit)
    (horiginal : ∀ body, KeepsCalls (originalSend body)) (body : JSValue) :
    KeepsCalls (responseLoggingSend env originalSend body) := by
  unfold responseLoggingSend
  refine keepsCalls_bind ?_ (fun _ => horiginal body)
  exact keepsCalls_tryCatch (logger.response_keeps env body) (fun x => logger.error_keeps env _ x)

theorem originalSend_keeps (env : Env) (body : JSValue) : KeepsCalls (originalSend env body) := by
  unfold originalSend
  split
  · exact keepsCalls_bind (fun _ => ⟨rfl, rfl⟩) (fun _ =>
      responseLoggingSend_keeps env _ (originalSendPlain_keeps env) _)
  · exact originalSendPlain_keeps env body

theorem res.send_keeps (env : Env) (body : JSValue) : KeepsCalls (res.send env body) :=
  responseLoggingSend_keeps env _ (originalSend_keeps env) body

theorem res.json_keeps (env : Env) (value : JSValue) : KeepsCalls (res.json env value) :=
  res.send_keeps env _

theorem destructure_keeps (body : JSValue) (key : String) : KeepsCalls (destructure body key) := by
  intro w
  unfold destructure
  split <;> exact ⟨rfl, rfl⟩

theorem DbResult.length_keeps (r : DbResult) : KeepsCalls r.length := by
  intro w; cases r <;> exact ⟨rfl, rfl⟩

theorem DbResult.first_keeps (r : DbResult) : KeepsCalls r.first := by
  intro w
  rcases r with _ | _ | rs | h
  · exact ⟨rfl, rfl⟩
  · exact ⟨rfl, rfl⟩
  · cases rs <;> exact ⟨rfl, rfl⟩
  · exact ⟨rfl, rfl⟩

theorem DbResult.affectedRows_keeps (r : DbResult) : KeepsCalls r.affectedRows := by
  intro w; cases r <;> exact ⟨rfl, rfl⟩

theorem DbResult.insertId_keeps (r : DbResult) : KeepsCalls r.insertId := by
  intro w; cases r <;> exact ⟨rfl, rfl⟩

theorem dbQuery_keepsGateway (env : Env) (sql : String) (params : List JSValue)
    (cb : Option JSError → DbResult → Prog Unit) (hcb : ∀ e r, KeepsGateway (cb e r)) :
    KeepsGateway (dbQuery env sql params cb) := by
  unfold dbQuery
  refine keepsGateway_bind (fun _ => rfl) (fun _ => ?_)
  split
  · exact fun _ => rfl
  · exact keepsGateway_deferred (hcb _ _)

/-- The gateway adds exactly its own call to the list of gateway calls when
its callback adds none. -/
theorem executeQuery_gatewayCalls (env : Env) (sql : String) (params : List JSValue)
    (cb : Option JSError → DbResult → Prog Unit) (hcb : ∀ e r, KeepsGateway (cb e r)) (w : World) :
    (executeQuery env sql params cb w).2.gatewayCalls = w.gatewayCalls ++ [⟨sql, params⟩] := by
  unfold executeQuery
  rw [Prog.bind_run]
  simp only [recordGatewayCall]
  refine (keepsGateway_tryCatch ?_ ?_ _).trans rfl
  · refine keepsGateway_bind (keepsCalls_gateway (logger.query_keeps env sql params)) (fun _ => ?_)
    refine dbQuery_keepsGateway env sql params _ (fun e r => ?_)
    split
    · exact keepsGateway_bind (keepsCalls_gateway (logger.error_keeps env _ _)) (fun _ => hcb _ _)
    · exact keepsGateway_bind (keepsCalls_gateway (logger.queryResult_keeps env _)) (fun _ => hcb _ _)
  · intro x
    exact keepsGateway_bind (keepsCalls_gateway (logger.error_keeps env _ x)) (fun _ => hcb _ _)

theorem logger.log_run (env : Env) (hc : env.reliableConsole) (message : List Piece) (data : JSValue) (w : World) :
    logger.log env message data w = (.normal (), { w with ticks := w.ticks + 1, console := w.console ++ [⟨.out, stamp (env.now w.ticks) ++ message, if data.truthy then some (.value data) else none⟩] }) := by
  simp only [logger.log, Prog.bind_run, isoNow]
  by_cases hd : data.truthy = true <;> simp [hd, console.log, consoleWrite, hc _]

theorem logger.error_run (env : Env) (hc : env.reliableConsole) (message : List Piece) (error : JSError) (w : World) :
    logger.error env message error w = (.normal (), { w with ticks := w.ticks + 1, console := w.console ++ [⟨.err, stamp (env.now w.ticks) ++ [.lit "ERROR: "] ++ message, some (.error error)⟩] }) := by
  simp [logger.error, Prog.bind_run, isoNow, console.error, consoleWrite, hc _]

theorem logger.query_run (env : Env) (hc : env.reliableConsole) (sql : String) (params : List JSValue) (w : World) :
    logger.query env sql params w = (.normal (), { w with ticks := w.ticks + 1, console := w.console ++ queryLines (env.now w.ticks) sql params }) := by
  by_cases hp : params.length > 0 <;>
    simp [logger.query, Prog.bind_run, Prog.pure_run, isoNow, console.log, consoleWrite, hc _, queryLines, hp, JSValue.truthy, JSValue.isArray]

theorem logger.queryResult_run (env : Env) (hc : env.reliableConsole) (result : DbResult) (w : World) :
    logger.queryResult env result w = (.normal (), { w with ticks := w.ticks + 1, console := w.console ++ [completionLine (env.now w.ticks) none result] }) := by
  simp [logger.queryResult, Prog.bind_run, isoNow, console.log, consoleWrite, hc _, completionLine]

theorem responseLoggingSend_run (env : Env) (hc : env.reliableConsole)
    (originalSend : JSValue → Prog Unit) (body : JSValue) (w : World) :
    responseLoggingSend env originalSend body w = originalSend body { w with
      ticks := w.ticks + 1,
      console := w.console ++
        responseLines (env.now w.ticks) w.statusCode w.statusMessage body } := by
  by_cases hb : (body.truthy && body.typeOf == "object" && body.objectKeys.length > 0) = true <;>
    simp [responseLoggingSend, Prog.bind_run, Prog.tryCatch, logger.response, isoNow,
      res.statusCode, res.statusMessage, console.log, consoleWrite, hc _, Prog.pure_run,
      responseLines, hb]

theorem jsonBody_sentAsJson (env : Env) (v : JSValue) : (jsonBody env v).sentAsJson = false := by
  unfold jsonBody
  cases env.stringify v <;> rfl

theorem originalSend_plain (env : Env) (body : JSValue) (hb : body.sentAsJson = false) :
    originalSend env body = originalSendPlain env body := by
  simp [originalSend, hb]

theorem res.send_run (env : Env) (hc : env.reliableConsole) (body : JSValue)
    (hb : body.sentAsJson = false) (w : World) :
    res.send env body w = (.normal (), { w with ticks := w.ticks + 1, console := w.console ++ responseLines (env.now w.ticks) w.statusCode w.statusMessage body, sent := w.sent ++ [⟨w.statusCode, body⟩], statusMessage := .str (env.statusText w.statusCode) }) := by
  rw [res.send, responseLoggingSend_run env hc, originalSend_plain env body hb]
  rfl

theorem res.json_run (env : Env) (hc : env.reliableConsole) (v : JSValue) (w : World) :
    res.json env v w = (.normal (), { w with ticks := w.ticks + 1, console := w.console ++ responseLines (env.now w.ticks) w.statusCode w.statusMessage (jsonBody env v), sent := w.sent ++ [⟨w.statusCode, jsonBody env v⟩], statusMessage := .str (env.statusText w.statusCode) }) :=
  res.send_run env hc _ (jsonBody_sentAsJson env v) w

theorem Prog.tryCatch_deferred (p : Prog Unit) (handler : JSError → Prog Unit) (w : World) :
    Prog.tryCatch (Prog.deferred p) handler w = Prog.deferred p w := by
  unfold Prog.tryCatch Prog.deferred
  rcases p w with ⟨c, w1⟩
  cases c <;> rfl

theorem Prog.tryCatch_bind_normal {α : Type} {p : Prog α} {f : α → Prog Unit}
    {handler : JSError → Prog Unit} {w w1 : World} {a : α} (h : p w = (.normal a, w1)) :
    Prog.tryCatch (p >>= f) handler w = Prog.tryCatch (f a) handler w1 := by
  simp [Prog.tryCatch, Prog.bind_run, h]

theorem Prog.deferred_bind_normal {α : Type} {p : Prog α} {f : α → Prog Unit}
    {w w1 : World} {a : α} (h : p w = (.normal a, w1)) :
    Prog.deferred (p >>= f) w = Prog.deferred (f a) w1 := by
  simp [Prog.deferred, Prog.bind_run, h]

theorem recordDbCall_run (sql : String) (params : List JSValue) (w : World) :
    recordDbCall sql params w =
      (.normal (), { w with dbCalls := w.dbCalls ++ [⟨sql, params⟩] }) := rfl

theorem executeQuery_run_completes (env : Env) (hc : env.reliableConsole) (sql : String) (params : List JSValue)
    (cb : Option JSError → DbResult → Prog Unit) (e : Option JSError) (r : DbResult)
    (hdb : env.db sql params = .completes e r) (w : World) :
    executeQuery env sql params cb w = Prog.deferred (cb e r)
      { w with gatewayCalls := w.gatewayCalls ++ [⟨sql, params⟩], dbCalls := w.dbCalls ++ [⟨sql, params⟩],
               ticks := w.ticks + 2,
               console := w.console ++ queryLines (env.now w.ticks) sql params ++ [completionLine (env.now (w.ticks + 1)) e r] } := by
  unfold executeQuery
  rw [Prog.bind_run]
  simp only [recordGatewayCall]
  rw [Prog.tryCatch_bind_normal (logger.query_run env hc sql params _)]
  unfold dbQuery
  rw [Prog.tryCatch_bind_normal (recordDbCall_run sql params _)]
  simp only [hdb]
  rw [Prog.tryCatch_deferred]
  cases e with
  | none =>
    simp only []
    rw [Prog.deferred_bind_normal (logger.queryResult_run env hc r _)]
  | some err =>
    simp only []
    rw [Prog.deferred_bind_normal (logger.error_run env hc _ err _)]
    simp [completionLine]

theorem executeQuery_run_throws (env : Env) (hc : env.reliableConsole) (sql : String) (params : List JSValue)
    (cb : Option JSError → DbResult → Prog Unit) (x : JSError)
    (hdb : env.db sql params = .throws x) (w : World) :
    executeQuery env sql params cb w = cb (some x) .null
      { w with gatewayCalls := w.gatewayCalls ++ [⟨sql, params⟩], dbCalls := w.dbCalls ++ [⟨sql, params⟩],
               ticks := w.ticks + 2,
               console := w.console ++ queryLines (env.now w.ticks) sql params ++
                 [⟨.err, stamp (env.now (w.ticks + 1)) ++ [.lit "ERROR: "] ++ [.lit "Error en executeQuery:"], some (.error x)⟩] } := by
  simp [executeQuery, Prog.bind_run, Prog.tryCatch, logger.query_run env hc, dbQuery, hdb, Prog.raise,
    logger.error_run env hc, recordGatewayCall, recordDbCall]

theorem Prog.pure_bind {α β : Type} (a : α) (f : α → Prog β) : (pure a >>= f) = f a := rfl

theorem destructure_obj (fields : List (String × JSValue)) (key : String) :
    destructure (.obj fields) key = pure (JSValue.lookup key fields) := rfl

/-- The 400 branch of a create or update handler. -/
theorem validationBranch_keeps (env : Env) (logText : List Piece) (message : String) :
    KeepsCalls (do
      logger.log env logText .undefined
      res.status 400
      res.json env (.obj [("mensaje", .str message)])) :=
  keepsCalls_bind (logger.log_keeps env _ _) (fun _ =>
    keepsCalls_bind (res.status_keeps 400) (fun _ => res.json_keeps env _))

theorem validationBranch_run (env : Env) (hc : env.reliableConsole) (logText : List Piece)
    (message : String) :
    ((do
      logger.log env logText .undefined
      res.status 400
      res.json env (.obj [("mensaje", .str message)]) : Prog Unit) World.init).1 = .normal () ∧
    ((do
      logger.log env logText .undefined
      res.status 400
      res.json env (.obj [("mensaje", .str message)]) : Prog Unit) World.init).2.sent =
      [⟨400, jsonBody env (.obj [("mensaje", .str message)])⟩] := by
  simp [Prog.bind_run, logger.log_run env hc, res.json_run env hc, res.status, World.init]

theorem validBody_obj {r : Resource} {body : JSValue} (h : validBody r body = true) :
    ∃ fields, body = .obj fields ∧
      ∀ key ∈ requiredFields r, (JSValue.lookup key fields).truthy = true := by
  cases body <;> simp [validBody] at h
  exact ⟨_, rfl, h⟩

/-- The 500 branch shared by the fifteen callbacks. -/
theorem errorBranch_run (env : Env) (hc : env.reliableConsole) (e : JSError) (w : World) :
    (do
      res.status 500
      res.json env (.obj [("error", .str e.message)]) : Prog Unit) w =
      (.normal (), { w with
        ticks := w.ticks + 1,
        console := w.console ++ responseLines (env.now w.ticks) 500 w.statusMessage
          (jsonBody env (.obj [("error", .str e.message)])),
        statusCode := 500,
        sent := w.sent ++ [⟨500, jsonBody env (.obj [("error", .str e.message)])⟩],
        statusMessage := .str (env.statusText 500) }) := by
  simp [Prog.bind_run, res.json_run env hc, res.status]

theorem executeQuery_error (env : Env) (hc : env.reliableConsole) (sql : String)
    (params : List JSValue) (cb : Option JSError → DbResult → Prog Unit) (e : JSError)
    (hcb : ∀ results, cb (some e) results = (do
      res.status 500
      res.json env (.obj [("error", .str e.message)])))
    (hdb : (env.db sql params).deliveredError = some e) :
    (executeQuery env sql params cb World.init).1 = .normal () ∧
    (executeQuery env sql params cb World.init).2.sent =
      [⟨500, jsonBody env (.obj [("error", .str e.message)])⟩] := by
  cases hout : env.db sql params with
  | completes e1 results =>
    rw [hout] at hdb
    simp only [DbOutcome.deliveredError] at hdb
    subst hdb
    rw [executeQuery_run_completes env hc sql params cb _ _ hout, Prog.deferred, hcb,
      errorBranch_run env hc]
    simp [World.init]
  | throws x =>
    rw [hout] at hdb
    simp only [DbOutcome.deliveredError, Option.some.injEq] at hdb
    subst hdb
    rw [executeQuery_run_throws env hc sql params cb _ hout, hcb, errorBranch_run env hc]
    simp [World.init]

theorem JSValue.strictEqualsZero_ofNat (n : Nat) :
    (JSValue.ofNat n).strictEqualsZero = decide (n = 0) := by
  cases n <;> rfl

theorem placeholders_statement (r : Resource) (op : Operation) :
    placeholders (statement r op) =
      match r, op with
      | _, .list => 0
      | _, .get => 1
      | _, .delete => 1
      | .empleados, .create => 3
      | .empleados, .update => 4
      | _, .create => 4
      | _, .update => 5 := by
  cases r <;> cases op <;> decide

/-- The callbacks of the handlers leave the call lists alone; the gateway
therefore records exactly its own call. -/
theorem executeQuery_gatewayCalls_init (env : Env) (sql : String) (params : List JSValue)
    (cb : Option JSError → DbResult → Prog Unit) (hcb : ∀ e r, KeepsGateway (cb e r)) :
    (executeQuery env sql params cb World.init).2.gatewayCalls = [⟨sql, params⟩] :=
  executeQuery_gatewayCalls env sql params cb hcb World.init

theorem destructure_nullish_run {β : Type} (body : JSValue)
    (hb : body = .undefined ∨ body = .null) (key : String) (f : JSValue → Prog β) (w : World) :
    ((destructure body key >>= f) w).2 = w := by
  rcases hb with rfl | rfl <;> rfl

theorem destructure_other (body : JSValue) (hu : body ≠ .undefined) (hn : body ≠ .null)
    (ho : ∀ fields, body ≠ .obj fields) (key : String) :
    destructure body key = pure .undefined := by
  cases body <;> first | rfl | exact absurd rfl hu | exact absurd rfl hn | exact absurd rfl (ho _)

/-- A body that is neither nullish nor an object has no field: create and
update take the 400 branch. -/
theorem route_other_body (r : Resource) (op : Operation) (hop : op.readsBody = true) (env : Env)
    (id : String) (body : JSValue) (hu : body ≠ .undefined) (hn : body ≠ .null)
    (ho : ∀ fields, body ≠ .obj fields) :
    ∃ logText, route r op env ⟨id, body⟩ = (do
      logger.log env logText .undefined
      res.status 400
      res.json env (.obj [("mensaje", .str (validationMessage r))])) := by
  cases op <;> simp [Operation.readsBody] at hop <;> cases r <;>
    exact ⟨_, by simp only [route, empleadosRouter.post, empleadosRouter.put, clientesRouter.post,
      clientesRouter.put, proveedoresRouter.post, proveedoresRouter.put,
      destructure_other body hu hn ho, Prog.pure_bind, JSValue.truthy, Bool.not_false,
      Bool.or_self, if_true, validationMessage]; rfl⟩

theorem errorBranch_keeps (env : Env) (e : JSError) :
    KeepsCalls (do
      res.status 500
      res.json env (.obj [("error", .str e.message)]) : Prog Unit) :=
  keepsCalls_bind (res.status_keeps 500) (fun _ => res.json_keeps env _)

theorem keepsGateway_of_branches (cb : Option JSError → DbResult → Prog Unit)
    (hsome : ∀ e results, KeepsCalls (cb (some e) results))
    (hnone : ∀ results, KeepsCalls (cb none results)) :
    ∀ e results, KeepsGateway (cb e results) := by
  intro e results
  cases e with
  | none => exact keepsCalls_gateway (hnone results)
  | some e => exact keepsCalls_gateway (hsome e results)

/-- The one gateway call of the `list` route. -/
theorem route_gatewayCalls_list (r : Resource) (env : Env) (req : Request) :
    (route r .list env req World.init).2.gatewayCalls = [⟨statement r .list, []⟩] := by
  cases r
  · simp only [route, empleadosRouter.getAll, statement]
    exact executeQuery_gatewayCalls_init env _ _ _ (keepsGateway_of_branches _
      (fun e _ => errorBranch_keeps env e)
      (fun _ => res.json_keeps env _))
  · simp only [route, clientesRouter.getAll, statement]
    exact executeQuery_gatewayCalls_init env _ _ _ (keepsGateway_of_branches _
      (fun e _ => errorBranch_keeps env e)
      (fun _ => res.json_keeps env _))
  · simp only [route, proveedoresRouter.getAll, statement]
    exact executeQuery_gatewayCalls_init env _ _ _ (keepsGateway_of_branches _
      (fun e _ => errorBranch_keeps env e)
      (fun _ => res.json_keeps env _))

/-- The one gateway call of the `get` route. -/
theorem route_gatewayCalls_get (r : Resource) (env : Env) (req : Request) :
    (route r .get env req World.init).2.gatewayCalls = [⟨statement r .get, [.str req.id]⟩] := by
  cases r
  · simp only [route, empleadosRouter.getById, statement]
    exact executeQuery_gatewayCalls_init env _ _ _ (keepsGateway_of_branches _
      (fun e _ => errorBranch_keeps env e)
      (fun results => keepsCalls_bind (DbResult.length_keeps results) (fun length => by
          split
          · exact keepsCalls_bind (logger.log_keeps env _ _) (fun _ =>
              keepsCalls_bind (res.status_keeps 404) (fun _ => res.json_keeps env _))
          · exact keepsCalls_bind (DbResult.first_keeps results) (fun _ => res.json_keeps env _))))
  · simp only [route, clientesRouter.getById, statement]
    exact executeQuery_gatewayCalls_init env _ _ _ (keepsGateway_of_branches _
      (fun e _ => errorBranch_keeps env e)
      (fun results => keepsCalls_bind (DbResult.length_keeps results) (fun length => by
          split
          · exact keepsCalls_bind (logger.log_keeps env _ _) (fun _ =>
              keepsCalls_bind (res.status_keeps 404) (fun _ => res.json_keeps env _))
          · exact keepsCalls_bind (DbResult.first_keeps results) (fun _ => res.json_keeps env _))))
  · simp only [route, proveedoresRouter.getById, statement]
    exact executeQuery_gatewayCalls_init env _ _ _ (keepsGateway_of_branches _
      (fun e _ => errorBranch_keeps env e)
      (fun results => keepsCalls_bind (DbResult.length_keeps results) (fun length => by
          split
          · exact keepsCalls_bind (logger.log_keeps env _ _) (fun _ =>
              keepsCalls_bind (res.status_keeps 404) (fun _ => res.json_keeps env _))
          · exact keepsCalls_bind (DbResult.first_keeps results) (fun _ => res.json_keeps env _))))

/-- The one gateway call of the `delete` route. -/
theorem route_gatewayCalls_delete (r : Resource) (env : Env) (req : Request) :
    (route r .delete env req World.init).2.gatewayCalls = [⟨statement r .delete, [.str req.id]⟩] := by
  cases r
  · simp only [route, empleadosRouter.delete, statement]
    exact executeQuery_gatewayCalls_init env _ _ _ (keepsGateway_of_branches _
      (fun e _ => errorBranch_keeps env e)
      (fun results => keepsCalls_bind (DbResult.affectedRows_keeps results) (fun affected => by
          split
          · exact keepsCalls_bind (logger.log_keeps env _ _) (fun _ =>
              keepsCalls_bind (res.status_keeps 404) (fun _ => res.json_keeps env _))
          · exact keepsCalls_bind (logger.log_keeps env _ _) (fun _ => res.json_keeps env _))))
  · simp only [route, clientesRouter.delete, statement]
    exact executeQuery_gatewayCalls_init env _ _ _ (keepsGateway_of_branches _
      (fun e _ => errorBranch_keeps env e)
      (fun results => keepsCalls_bind (DbResult.affectedRows_keeps results) (fun affected => by
          split
          · exact keepsCalls_bind (logger.log_keeps env _ _) (fun _ =>
              keepsCalls_bind (res.status_keeps 404) (fun _ => res.json_keeps env _))
          · exact keepsCalls_bind (logger.log_keeps env _ _) (fun _ => res.json_keeps env _))))
  · simp only [route, proveedoresRouter.delete, statement]
    exact executeQuery_gatewayCalls_init env _ _ _ (keepsGateway_of_branches _
      (fun e _ => errorBranch_keeps env e)
      (fun results => keepsCalls_bind (DbResult.affectedRows_keeps results) (fun affected => by
          split
          · exact keepsCalls_bind (logger.log_keeps env _ _) (fun _ =>
              keepsCalls_bind (res.status_keeps 404) (fun _ => res.json_keeps env _))
          · exact keepsCalls_bind (logger.log_keeps env _ _) (fun _ => res.json_keeps env _))))

/-- The gateway calls of the `create` route on an object body: one call when
the body passes validation, none otherwise. -/
theorem route_gatewayCalls_create (r : Resource) (env : Env) (id : String)
    (fields : List (String × JSValue)) :
    (route r .create env ⟨id, .obj fields⟩ World.init).2.gatewayCalls =
      if validBody r (.obj fields) = true then
        [⟨statement r .create, boundValues r fields⟩]
      else [] := by
  cases r
  · simp only [route, empleadosRouter.post, destructure_obj, Prog.pure_bind, statement]
    split
    · rename_i hcond
      rw [if_neg (by simpa [validBody, requiredFields, imp_iff_not_or, or_assoc] using hcond)]
      exact (validationBranch_keeps env _ _ World.init).1
    · rename_i hcond
      rw [if_pos (by simpa [validBody, requiredFields, and_assoc] using hcond)]
      exact executeQuery_gatewayCalls_init env _ _ _ (keepsGateway_of_branches _
        (fun e _ => errorBranch_keeps env e)
        (fun results => keepsCalls_bind (DbResult.insertId_keeps results) (fun _ =>
          keepsCalls_bind (logger.log_keeps env _ _) (fun _ =>
            keepsCalls_bind (res.status_keeps 201) (fun _ => res.json_keeps env _)))))
  · simp only [route, clientesRouter.post, destructure_obj, Prog.pure_bind, statement]
    split
    · rename_i hcond
      rw [if_neg (by simpa [validBody, requiredFields, imp_iff_not_or, or_assoc] using hcond)]
      exact (validationBranch_keeps env _ _ World.init).1
    · rename_i hcond
      rw [if_pos (by simpa [validBody, requiredFields, and_assoc] using hcond)]
      exact executeQuery_gatewayCalls_init env _ _ _ (keepsGateway_of_branches _
        (fun e _ => errorBranch_keeps env e)
        (fun results => keepsCalls_bind (DbResult.insertId_keeps results) (fun _ =>
          keepsCalls_bind (logger.log_keeps env _ _) (fun _ =>
            keepsCalls_bind (res.status_keeps 201) (fun _ => res.json_keeps env _)))))
  · simp only [route, proveedoresRouter.post, destructure_obj, Prog.pure_bind, statement]
    split
    · rename_i hcond
      rw [if_neg (by simpa [validBody, requiredFields, imp_iff_not_or, or_assoc] using hcond)]
      exact (validationBranch_keeps env _ _ World.init).1
    · rename_i hcond
      rw [if_pos (by simpa [validBody, requiredFields, and_assoc] using hcond)]
      exact executeQuery_gatewayCalls_init env _ _ _ (keepsGateway_of_branches _
        (fun e _ => errorBranch_keeps env e)
        (fun results => keepsCalls_bind (DbResult.insertId_keeps results) (fun _ =>
          keepsCalls_bind (logger.log_keeps env _ _) (fun _ =>
            keepsCalls_bind (res.status_keeps 201) (fun _ => res.json_keeps env _)))))

/-- The `create` route makes no gateway call on a body that is not an object. -/
theorem route_gatewayCalls_create_other (r : Resource) (env : Env) (id : String) (body : JSValue)
    (ho : ∀ fields, body ≠ .obj fields) :
    (route r .create env ⟨id, body⟩ World.init).2.gatewayCalls = [] := by
  by_cases hb : body = .undefined ∨ body = .null
  · cases r <;> simp only [route, empleadosRouter.post, clientesRouter.post, proveedoresRouter.post] <;>
      rw [destructure_nullish_run body hb] <;> rfl
  · obtain ⟨logText, hroute⟩ := route_other_body r .create rfl env id body
      (fun h => hb (Or.inl h)) (fun h => hb (Or.inr h)) ho
    rw [hroute]
    exact (validationBranch_keeps env _ _ World.init).1

/-- The gateway calls of the `update` route on an object body: one call when
the body passes validation, none otherwise. -/
theorem route_gatewayCalls_update (r : Resource) (env : Env) (id : String)
    (fields : List (String × JSValue)) :
    (route r .update env ⟨id, .obj fields⟩ World.init).2.gatewayCalls =
      if validBody r (.obj fields) = true then
        [⟨statement r .update, boundValues r fields ++ [.str id]⟩]
      else [] := by
  cases r
  · simp only [route, empleadosRouter.put, destructure_obj, Prog.pure_bind, statement]
    split
    · rename_i hcond
      rw [if_neg (by simpa [validBody, requiredFields, imp_iff_not_or, or_assoc] using hcond)]
      exact (validationBranch_keeps env _ _ World.init).1
    · rename_i hcond
      rw [if_pos (by simpa [validBody, requiredFields, and_assoc] using hcond)]
      exact executeQuery_gatewayCalls_init env _ _ _ (keepsGateway_of_branches _
        (fun e _ => errorBranch_keeps env e)
        (fun results => keepsCalls_bind (DbResult.affectedRows_keeps results) (fun affected => by
          split
          · exact keepsCalls_bind (logger.log_keeps env _ _) (fun _ =>
              keepsCalls_bind (res.status_keeps 404) (fun _ => res.json_keeps env _))
          · exact keepsCalls_bind (logger.log_keeps env _ _) (fun _ => res.json_keeps env _))))
  · simp only [route, clientesRouter.put, destructure_obj, Prog.pure_bind, statement]
    split
    · rename_i hcond
      rw [if_neg (by simpa [validBody, requiredFields, imp_iff_not_or, or_assoc] using hcond)]
      exact (validationBranch_keeps env _ _ World.init).1
    · rename_i hcond
      rw [if_pos (by simpa [validBody, requiredFields, and_assoc] using hcond)]
      exact executeQuery_gatewayCalls_init env _ _ _ (keepsGateway_of_branches _
        (fun e _ => errorBranch_keeps env e)
        (fun results => keepsCalls_bind (DbResult.affectedRows_keeps results) (fun affected => by
          split
          · exact keepsCalls_bind (logger.log_keeps env _ _) (fun _ =>
              keepsCalls_bind (res.status_keeps 404) (fun _ => res.json_keeps env _))
          · exact keepsCalls_bind (logger.log_keeps env _ _) (fun _ => res.json_keeps env _))))
  · simp only [route, proveedoresRouter.put, destructure_obj, Prog.pure_bind, statement]
    split
    · rename_i hcond
      rw [if_neg (by simpa [validBody, requiredFields, imp_iff_not_or, or_assoc] using hcond)]
      exact (validationBranch_keeps env _ _ World.init).1
    · rename_i hcond
      rw [if_pos (by simpa [validBody, requiredFields, and_assoc] using hcond)]
      exact executeQuery_gatewayCalls_init env _ _ _ (keepsGateway_of_branches _
        (fun e _ => errorBranch_keeps env e)
        (fun results => keepsCalls_bind (DbResult.affectedRows_keeps results) (fun affected => by
          split
          · exact keepsCalls_bind (logger.log_keeps env _ _) (fun _ =>
              keepsCalls_bind (res.status_keeps 404) (fun _ => res.json_keeps env _))
          · exact keepsCalls_bind (logger.log_keeps env _ _) (fun _ => res.json_keeps env _))))

/-- The `update` route makes no gateway call on a body that is not an object. -/
theorem route_gatewayCalls_update_other (r : Resource) (env : Env) (id : String) (body : JSValue)
    (ho : ∀ fields, body ≠ .obj fields) :
    (route r .update env ⟨id, body⟩ World.init).2.gatewayCalls = [] := by
  by_cases hb : body = .undefined ∨ body = .null
  · cases r <;> simp only [route, empleadosRouter.put, clientesRouter.put, proveedoresRouter.put] <;>
      rw [destructure_nullish_run body hb] <;> rfl
  · obtain ⟨logText, hroute⟩ := route_other_body r .update rfl env id body
      (fun h => hb (Or.inl h)) (fun h => hb (Or.inr h)) ho
    rw [hroute]
    exact (validationBranch_keeps env _ _ World.init).1

theorem JSValue.lookup_absent (key : String) (fields : List (String × JSValue))
    (h : ∀ p ∈ fields, p.1 ≠ key) : JSValue.lookup key fields = .undefined := by
  induction fields with
  | nil => rfl
  | cons p rest ih =>
    obtain ⟨k, v⟩ := p
    have hk : k ≠ key := h (k, v) (List.mem_cons_self _ _)
    simp only [JSValue.lookup, hk, if_false]
    exact ih (fun q hq => h q (List.mem_cons_of_mem _ hq))

theorem boundValues_length (id : String) (r : Resource) (fields : List (String × JSValue)) :
    placeholders (statement r .create) = (boundValues r fields).length ∧
    placeholders (statement r .update) = (boundValues r fields ++ [JSValue.str id]).length := by
  cases r <;> exact ⟨placeholders_statement _ _, placeholders_statement _ _⟩

/-- What every route hands to the gateway: nothing, or one call with the
route's statement text, as many parameters as the text has placeholders,
and the path id as the last of them on the routes that have one. -/
theorem route_gatewayCalls (r : Resource) (op : Operation) (env : Env) (req : Request) :
    ((route r op env req World.init).2.gatewayCalls = [] ∧
      op.readsBody = true ∧ validBody r req.body = false) ∨
    ∃ params, (route r op env req World.init).2.gatewayCalls = [⟨statement r op, params⟩] ∧
      placeholders (statement r op) = params.length ∧
      (op.hasId = true → params.getLast? = some (.str req.id)) := by
  obtain ⟨id, body⟩ := req
  cases op
  case list =>
    exact .inr ⟨_, route_gatewayCalls_list r env _, by cases r <;> exact placeholders_statement _ _,
      by simp [Operation.hasId]⟩
  case get =>
    exact .inr ⟨_, route_gatewayCalls_get r env _, by cases r <;> exact placeholders_statement _ _,
      fun _ => rfl⟩
  case delete =>
    exact .inr ⟨_, route_gatewayCalls_delete r env _,
      by cases r <;> exact placeholders_statement _ _, fun _ => rfl⟩
  case create =>
    by_cases ho : ∃ fields, body = .obj fields
    · obtain ⟨fields, rfl⟩ := ho
      have hcalls := route_gatewayCalls_create r env id fields
      by_cases hv : validBody r (.obj fields) = true
      · rw [if_pos hv] at hcalls
        exact .inr ⟨_, hcalls, (boundValues_length id r fields).1, by simp [Operation.hasId]⟩
      · rw [if_neg hv] at hcalls
        exact .inl ⟨hcalls, rfl, by simpa using hv⟩
    · refine .inl ⟨route_gatewayCalls_create_other r env id body (fun f h => ho ⟨f, h⟩), rfl, ?_⟩
      cases body <;> first | rfl | exact absurd ⟨_, rfl⟩ ho
  case update =>
    by_cases ho : ∃ fields, body = .obj fields
    · obtain ⟨fields, rfl⟩ := ho
      have hcalls := route_gatewayCalls_update r env id fields
      by_cases hv : validBody r (.obj fields) = true
      · rw [if_pos hv] at hcalls
        exact .inr ⟨_, hcalls, (boundValues_length id r fields).2, fun _ => by simp⟩
      · rw [if_neg hv] at hcalls
        exact .inl ⟨hcalls, rfl, by simpa using hv⟩
    · refine .inl ⟨route_gatewayCalls_update_other r env id body (fun f h => ho ⟨f, h⟩), rfl, ?_⟩
      cases body <;> first | rfl | exact absurd ⟨_, rfl⟩ ho

theorem Prog.deferred_of_normal {p : Prog Unit} {w w1 : World} (h : p w = (.normal (), w1)) :
    Prog.deferred p w = p w := by
  simp [Prog.deferred, h]

theorem Prog.tryCatch_bind_throw {α : Type} {p : Prog α} {f : α → Prog Unit}
    {handler : JSError → Prog Unit} {w w1 : World} {x : JSError} (h : p w = (.throw x, w1)) :
    Prog.tryCatch (p >>= f) handler w = handler x w1 := by
  simp [Prog.tryCatch, Prog.bind_run, h]

theorem logger.error_run_err (env : Env) (herr : env.reliableConsoleError) (message : List Piece)
    (error : JSError) (w : World) :
    logger.error env message error w = (.normal (), { w with
      ticks := w.ticks + 1,
      console := w.console ++
        [⟨.err, stamp (env.now w.ticks) ++ [.lit "ERROR: "] ++ message, some (.error error)⟩] }) := by
  have h : env.consoleFault ⟨.err, stamp (env.now w.ticks) ++ [.lit "ERROR: "] ++ message,
      some (.error error)⟩ = none := herr _ rfl
  simp only [logger.error, Prog.bind_run, isoNow, console.error, consoleWrite, h]

theorem keepsResponse_pure {α : Type} (a : α) : KeepsResponse (pure a : Prog α) :=
  fun _ => ⟨rfl, rfl⟩

theorem keepsResponse_bind {α β : Type} {p : Prog α} {f : α → Prog β} (hp : KeepsResponse p)
    (hf : ∀ a, KeepsResponse (f a)) : KeepsResponse (p >>= f) := by
  intro w
  have h1 := hp w
  rw [Prog.bind_run]
  rcases hpw : p w with ⟨c, w1⟩
  rw [hpw] at h1
  cases c with
  | normal a => exact ⟨(hf a w1).1.trans h1.1, (hf a w1).2.trans h1.2⟩
  | throw x => exact h1

theorem consoleWrite_keepsResponse (env : Env) (entry : LogEntry) :
    KeepsResponse (consoleWrite env entry) := by
  intro w
  unfold consoleWrite
  cases env.consoleFault entry <;> exact ⟨rfl, rfl⟩

theorem logger.response_keepsResponse (env : Env) (body : JSValue) :
    KeepsResponse (logger.response env body) := by
  unfold logger.response
  refine keepsResponse_bind (fun _ => ⟨rfl, rfl⟩) (fun t => ?_)
  refine keepsResponse_bind (fun _ => ⟨rfl, rfl⟩) (fun c => ?_)
  refine keepsResponse_bind (fun _ => ⟨rfl, rfl⟩) (fun m => ?_)
  refine keepsResponse_bind (consoleWrite_keepsResponse env _) (fun _ => ?_)
  split
  · exact consoleWrite_keepsResponse env _
  · exact keepsResponse_pure _

theorem responseLines_jsonBody (env : Env) (timestamp : String) (statusCode : Nat)
    (statusMessage v : JSValue) :
    responseLines timestamp statusCode statusMessage (jsonBody env v) =
      [⟨.out, stamp timestamp ++ [.lit "RESPONSE: ", .val (.ofNat statusCode), .lit " ",
        .val statusMessage], none⟩] := by
  unfold responseLines jsonBody
  cases env.stringify v <;> simp [JSValue.typeOf, JSValue.truthy]

theorem responseLoggingSend_err (env : Env) (herr : env.reliableConsoleError)
    (originalSend : JSValue → Prog Unit) (body : JSValue) (w : World) :
    ∃ w1, responseLoggingSend env originalSend body w = originalSend body w1 ∧
      w1.sent = w.sent ∧ w1.statusCode = w.statusCode := by
  have hframe := logger.response_keepsResponse env body w
  unfold responseLoggingSend
  rw [Prog.bind_run]
  unfold Prog.tryCatch
  rcases hresp : logger.response env body w with ⟨c, w1⟩
  rw [hresp] at hframe
  cases c with
  | normal a => exact ⟨w1, rfl, hframe.1, hframe.2⟩
  | throw x =>
    simp only [logger.error_run_err env herr]
    exact ⟨_, rfl, hframe.1, hframe.2⟩

/-! ## The properties of the specification -/

/-- **C1.** For each resource and for both the create and the update handler:
when the body (any parsed body other than `undefined` and `null`) has some
required field missing or falsy, the handler makes no call to `executeQuery`
and none to the driver, whatever the path id, the store and the console do;
and when the console works it completes having sent exactly one response, of
status 400 with the validation message. -/
theorem validation_failure_is_400_without_query (env : Env) (r : Resource) (op : Operation)
    (hop : op.readsBody = true) (req : Request) (hbody : req.body.isNullish = false)
    (key : String) (hkey : key ∈ requiredFields r)
    (hfalsy : (JSValue.lookup key (fieldsOf req.body)).truthy = false) :
    (route r op env req World.init).2.gatewayCalls = [] ∧
    (route r op env req World.init).2.dbCalls = [] ∧
    (env.reliableConsole →
      (route r op env req World.init).1 = .normal () ∧
      (route r op env req World.init).2.sent =
        [⟨400, jsonBody env (.obj [("mensaje", .str (validationMessage r))])⟩]) := by
  obtain ⟨id, body⟩ := req
  have hbranch : ∃ logText, route r op env ⟨id, body⟩ = (do
      logger.log env logText .undefined
      res.status 400
      res.json env (.obj [("mensaje", .str (validationMessage r))])) := by
    by_cases ho : ∃ fields, body = .obj fields
    · obtain ⟨fields, rfl⟩ := ho
      simp only [fieldsOf] at hfalsy
      cases op <;> simp [Operation.readsBody] at hop <;> cases r <;>
        simp only [requiredFields, List.mem_cons, List.mem_singleton, List.not_mem_nil,
          or_false] at hkey <;>
        rcases hkey with rfl | rfl | rfl | rfl <;>
        exact ⟨_, by simp [route, empleadosRouter.post, empleadosRouter.put, clientesRouter.post,
          clientesRouter.put, proveedoresRouter.post, proveedoresRouter.put, destructure_obj,
          Prog.pure_bind, hfalsy, validationMessage]; rfl⟩
    · exact route_other_body r op hop env id body
        (fun h => by rw [h] at hbody; cases hbody) (fun h => by rw [h] at hbody; cases hbody)
        (fun fields h => ho ⟨fields, h⟩)
  obtain ⟨logText, hb⟩ := hbranch
  rw [hb]
  refine ⟨(validationBranch_keeps env logText _ World.init).1,
    (validationBranch_keeps env logText _ World.init).2, fun hc => ?_⟩
  exact validationBranch_run env hc logText _

/-- **C2.** For each of the fifteen handlers, when the console works and the
error the callback of `executeQuery` receives is `e` (the body having passed
validation on create and update): the handler completes having sent exactly
one response, of status 500, whose body is the JSON text of the object with
the single property `error` holding `e.message`. -/
theorem gateway_failure_is_500 (env : Env) (hc : env.reliableConsole) (r : Resource)
    (op : Operation) (req : Request) (hbody : op.readsBody = true → validBody r req.body = true)
    (e : JSError)
    (hdb : (env.db (statement r op) (boundParams r op req)).deliveredError = some e) :
    (route r op env req World.init).1 = .normal () ∧
    (route r op env req World.init).2.sent =
      [⟨500, jsonBody env (.obj [("error", .str e.message)])⟩] := by
  obtain ⟨id, body⟩ := req
  cases op
  case create =>
    obtain ⟨fields, rfl, htruthy⟩ := validBody_obj (hbody rfl)
    cases r <;> simp only [requiredFields, List.mem_cons, List.mem_singleton, forall_eq_or_imp,
        forall_eq, List.not_mem_nil, false_implies, implies_true, and_true] at htruthy <;>
      simp only [route, empleadosRouter.post, clientesRouter.post, proveedoresRouter.post,
        destructure_obj, Prog.pure_bind, htruthy, Bool.not_true, Bool.or_self, Bool.false_eq_true,
        if_false] <;>
      exact executeQuery_error env hc _ _ _ e (fun _ => rfl) hdb
  case update =>
    obtain ⟨fields, rfl, htruthy⟩ := validBody_obj (hbody rfl)
    cases r <;> simp only [requiredFields, List.mem_cons, List.mem_singleton, forall_eq_or_imp,
        forall_eq, List.not_mem_nil, false_implies, implies_true, and_true] at htruthy <;>
      simp only [route, empleadosRouter.put, clientesRouter.put, proveedoresRouter.put,
        destructure_obj, Prog.pure_bind, htruthy, Bool.not_true, Bool.or_self, Bool.false_eq_true,
        if_false] <;>
      exact executeQuery_error env hc _ _ _ e (fun _ => rfl) hdb
  all_goals
    cases r <;>
      simp only [route, empleadosRouter.getAll, clientesRouter.getAll, proveedoresRouter.getAll,
        empleadosRouter.getById, clientesRouter.getById, proveedoresRouter.getById,
        empleadosRouter.delete, clientesRouter.delete, proveedoresRouter.delete] <;>
      exact executeQuery_error env hc _ _ _ e (fun _ => rfl) hdb

/-- **C3 (as amended).** For each resource, with a working console: when the
select-all statement succeeds with the row list `rows`, the list handler
completes having sent exactly one response, of status 200, whose body is
the JSON text of the array `rows` (the empty array for an empty table, never
a 404); when the gateway reports an error `e` it completes having sent
exactly one response, of status 500, whose body is the JSON text of the
object with the single property `error` holding `e.message`. -/
theorem list_is_200_with_rows_on_success (env : Env) (hc : env.reliableConsole) (r : Resource)
    (req : Request) :
    (∀ rows, env.db (statement r .list) [] = .completes none (.rows rows) →
      (route r .list env req World.init).1 = .normal () ∧
      (route r .list env req World.init).2.sent = [⟨200, jsonBody env (.arr rows)⟩]) ∧
    (∀ e, (env.db (statement r .list) []).deliveredError = some e →
      (route r .list env req World.init).1 = .normal () ∧
      (route r .list env req World.init).2.sent =
        [⟨500, jsonBody env (.obj [("error", .str e.message)])⟩]) := by
  constructor
  · intro rows hdb
    cases r <;>
      simp only [route, empleadosRouter.getAll, clientesRouter.getAll, proveedoresRouter.getAll] <;>
      simp only [statement, boundParams, boundValues, fieldsOf, List.cons_append, List.nil_append] at hdb <;>
      rw [executeQuery_run_completes env hc _ _ _ _ _ hdb] <;>
      simp [Prog.deferred, res.json_run env hc, DbResult.toJS, World.init]
  · intro e hdb
    cases r <;>
      simp only [statement] at hdb <;>
      simp only [route, empleadosRouter.getAll, clientesRouter.getAll, proveedoresRouter.getAll] <;>
      exact executeQuery_error env hc _ _ _ e (fun _ => rfl) hdb

/-- **C4.** For each resource and every path id, with a working console,
when the select-by-key statement succeeds with the row list `rows`: the
handler completes having sent exactly one response; it is the 404 with the
not-found message when `rows` is empty and the 200 whose body is the JSON
text of the first row otherwise; so the status is 404 exactly when `rows`
has length 0. -/
theorem get_by_id_is_404_iff_no_row (env : Env) (hc : env.reliableConsole) (r : Resource)
    (req : Request) (rows : List JSValue)
    (hdb : env.db (statement r .get) [.str req.id] = .completes none (.rows rows)) :
    (route r .get env req World.init).1 = .normal () ∧
    (rows = [] → (route r .get env req World.init).2.sent =
      [⟨404, jsonBody env (.obj [("mensaje", .str (notFoundMessage r))])⟩]) ∧
    (∀ row rest, rows = row :: rest →
      (route r .get env req World.init).2.sent = [⟨200, jsonBody env row⟩]) ∧
    (statuses (route r .get env req World.init) = [404] ↔ rows.length = 0) := by
  cases rows with
  | nil =>
    cases r <;>
      simp only [route, empleadosRouter.getById, clientesRouter.getById,
        proveedoresRouter.getById, statuses] <;>
      simp only [statement, boundParams, boundValues, fieldsOf, List.cons_append, List.nil_append] at hdb <;>
      rw [executeQuery_run_completes env hc _ _ _ _ _ hdb] <;>
      simp [Prog.deferred, Prog.bind_run, Prog.pure_run, DbResult.length,
        JSValue.strictEqualsZero_ofNat, logger.log_run env hc, res.json_run env hc, res.status,
        World.init, notFoundMessage]
  | cons row rest =>
    cases r <;>
      simp only [route, empleadosRouter.getById, clientesRouter.getById,
        proveedoresRouter.getById, statuses] <;>
      simp only [statement, boundParams, boundValues, fieldsOf, List.cons_append, List.nil_append] at hdb <;>
      rw [executeQuery_run_completes env hc _ _ _ _ _ hdb] <;>
      simp [Prog.deferred, Prog.bind_run, Prog.pure_run, DbResult.length, DbResult.first,
        JSValue.strictEqualsZero_ofNat, res.json_run env hc, World.init]

/-- **C5.** For each resource, for the update handler (body valid) and for
the delete handler, with a working console, when the statement succeeds with
the header `h`: the handler completes having sent exactly one response; it
is the 404 with the not-found message when `h.affectedRows` is 0 and the 200
with the confirmation message otherwise; so the status is 404 exactly when
`h.affectedRows = 0`, and it is never 500. -/
theorem update_delete_is_404_iff_no_affected_row (env : Env) (hc : env.reliableConsole)
    (r : Resource) (op : Operation) (hop : op = .update ∨ op = .delete) (req : Request)
    (hbody : op.readsBody = true → validBody r req.body = true) (h : ResultSetHeader)
    (hdb : env.db (statement r op) (boundParams r op req) = .completes none (.header h)) :
    (route r op env req World.init).1 = .normal () ∧
    (h.affectedRows = 0 → (route r op env req World.init).2.sent =
      [⟨404, jsonBody env (.obj [("mensaje", .str (notFoundMessage r))])⟩]) ∧
    (h.affectedRows ≠ 0 → (route r op env req World.init).2.sent =
      [⟨200, jsonBody env (.obj [("mensaje", .str (confirmationMessage r op))])⟩]) ∧
    (statuses (route r op env req World.init) = [404] ↔ h.affectedRows = 0) ∧
    statuses (route r op env req World.init) ≠ [500] := by
  obtain ⟨id, body⟩ := req
  rcases hop with rfl | rfl
  · obtain ⟨fields, rfl, htruthy⟩ := validBody_obj (hbody rfl)
    by_cases h0 : h.affectedRows = 0 <;> cases r <;>
      simp only [requiredFields, List.mem_cons, List.mem_singleton, forall_eq_or_imp,
        forall_eq, List.not_mem_nil, false_implies, implies_true, and_true] at htruthy <;>
      simp only [route, empleadosRouter.put, clientesRouter.put, proveedoresRouter.put,
        destructure_obj, Prog.pure_bind, htruthy, Bool.not_true, Bool.or_self, Bool.false_eq_true,
        if_false, statuses] <;>
      simp only [statement, boundParams, boundValues, fieldsOf, List.cons_append, List.nil_append] at hdb <;>
      rw [executeQuery_run_completes env hc _ _ _ _ _ hdb] <;>
      simp [Prog.deferred, Prog.bind_run, Prog.pure_run, DbResult.affectedRows,
        JSValue.strictEqualsZero_ofNat, logger.log_run env hc, res.json_run env hc, res.status,
        World.init, notFoundMessage, confirmationMessage, h0]
  · by_cases h0 : h.affectedRows = 0 <;> cases r <;>
      simp only [route, empleadosRouter.delete, clientesRouter.delete, proveedoresRouter.delete,
        statuses] <;>
      simp only [statement, boundParams, boundValues, fieldsOf, List.cons_append, List.nil_append] at hdb <;>
      rw [executeQuery_run_completes env hc _ _ _ _ _ hdb] <;>
      simp [Prog.deferred, Prog.bind_run, Prog.pure_run, DbResult.affectedRows,
        JSValue.strictEqualsZero_ofNat, logger.log_run env hc, res.json_run env hc, res.status,
        World.init, notFoundMessage, confirmationMessage, h0]

/-- **C6.** For each resource and every body whose required fields are all
truthy, with a working console, when the insert statement succeeds with the
header `h`: the create handler completes having sent exactly one response,
of status 201, whose body is the JSON text of the object with exactly the
two properties `mensaje` (the confirmation) and `id`, the latter being
`h.insertId`, whatever the request body holds. -/
theorem create_is_201_with_insert_id (env : Env) (hc : env.reliableConsole) (r : Resource)
    (req : Request) (hbody : validBody r req.body = true) (h : ResultSetHeader)
    (hdb : env.db (statement r .create) (boundParams r .create req) =
      .completes none (.header h)) :
    (route r .create env req World.init).1 = .normal () ∧
    (route r .create env req World.init).2.sent =
      [⟨201, jsonBody env (.obj [("mensaje", .str (createdMessage r)),
        ("id", .ofNat h.insertId)])⟩] := by
  obtain ⟨id, body⟩ := req
  obtain ⟨fields, rfl, htruthy⟩ := validBody_obj hbody
  cases r <;>
    simp only [requiredFields, List.mem_cons, List.mem_singleton, forall_eq_or_imp,
      forall_eq, List.not_mem_nil, false_implies, implies_true, and_true] at htruthy <;>
    simp only [route, empleadosRouter.post, clientesRouter.post, proveedoresRouter.post,
      destructure_obj, Prog.pure_bind, htruthy, Bool.not_true, Bool.or_self, Bool.false_eq_true,
      if_false] <;>
    simp only [statement, boundParams, boundValues, fieldsOf, List.cons_append, List.nil_append] at hdb <;>
    rw [executeQuery_run_completes env hc _ _ _ _ _ hdb] <;>
    simp [Prog.deferred, Prog.bind_run, Prog.pure_run, DbResult.insertId,
      logger.log_run env hc, res.json_run env hc, res.status, World.init, createdMessage]

/-- **C7.** For the client create and update handlers and every object body
whose three required fields are truthy, whatever the console and the store
do: the handler makes exactly one gateway call; its parameters are the
submitted `numero_identificacion`, `nombre_cliente` and `telefono_cliente`,
unchanged and in the order of the columns in the statement text, then the
email parameter (and the path id last, on update); the email parameter is
`null` when the body has no `email_cliente`, and the submitted value when
that is a non-empty string. -/
theorem client_email_parameter_defaults_to_null (env : Env) (id : String)
    (fields : List (String × JSValue)) (hvalid : validBody .clientes (.obj fields) = true) :
    ∃ email,
      (route .clientes .create env ⟨id, .obj fields⟩ World.init).2.gatewayCalls =
        [⟨"INSERT INTO clientes (numero_identificacion, nombre_cliente, telefono_cliente, email_cliente) VALUES (?, ?, ?, ?)",
          [JSValue.lookup "numero_identificacion" fields, JSValue.lookup "nombre_cliente" fields,
            JSValue.lookup "telefono_cliente" fields, email]⟩] ∧
      (route .clientes .update env ⟨id, .obj fields⟩ World.init).2.gatewayCalls =
        [⟨"UPDATE clientes SET numero_identificacion = ?, nombre_cliente = ?, telefono_cliente = ?, email_cliente = ? WHERE id_cliente = ?",
          [JSValue.lookup "numero_identificacion" fields, JSValue.lookup "nombre_cliente" fields,
            JSValue.lookup "telefono_cliente" fields, email, .str id]⟩] ∧
      ((∀ p ∈ fields, p.1 ≠ "email_cliente") → email = .null) ∧
      (∀ s, s ≠ "" → JSValue.lookup "email_cliente" fields = .str s → email = .str s) := by
  refine ⟨(JSValue.lookup "email_cliente" fields).or .null, ?_, ?_, ?_, ?_⟩
  · rw [route_gatewayCalls_create, if_pos hvalid]
    rfl
  · rw [route_gatewayCalls_update, if_pos hvalid]
    rfl
  · intro habsent
    rw [JSValue.lookup_absent _ _ habsent]
    rfl
  · intro s hs hlookup
    rw [hlookup]
    simp [JSValue.or, JSValue.truthy, hs]

/-- **C8.** Every call a handler makes to `executeQuery` is a parameterized
statement. For any two requests to the same route, in any two environments,
the statement texts of their gateway calls are the same string; in every
gateway call the number of `?` in the text equals the number of bound
parameters; on the routes with a path id (get, update, delete) the last
parameter is the path id as the string it arrived as; and a route makes
exactly one gateway call unless it is a create or update whose body fails
validation. -/
theorem statements_are_parameterized (r : Resource) (op : Operation) (env₁ env₂ : Env)
    (req₁ req₂ : Request) :
    (∀ c₁ ∈ (route r op env₁ req₁ World.init).2.gatewayCalls,
      ∀ c₂ ∈ (route r op env₂ req₂ World.init).2.gatewayCalls, c₁.sql = c₂.sql) ∧
    (∀ c ∈ (route r op env₁ req₁ World.init).2.gatewayCalls,
      placeholders c.sql = c.params.length ∧
      (op.hasId = true → c.params.getLast? = some (.str req₁.id))) ∧
    ((route r op env₁ req₁ World.init).2.gatewayCalls.length = 1 ∨
      (op.readsBody = true ∧ validBody r req₁.body = false)) := by
  rcases route_gatewayCalls r op env₁ req₁ with ⟨h1, hop, hv⟩ | ⟨p1, h1, hlen, hid⟩
  · rw [h1]
    exact ⟨by simp, by simp, .inr ⟨hop, hv⟩⟩
  · rw [h1]
    refine ⟨?_, by simpa using ⟨hlen, hid⟩, .inl rfl⟩
    rcases route_gatewayCalls r op env₂ req₂ with ⟨h2, _, _⟩ | ⟨p2, h2, _, _⟩ <;> rw [h2] <;> simp

/-- **C9 (as amended).** For every statement, parameter list and callback
that does not throw, started in any world: (1) if `logger.query` returns,
`db.query` completes with `(error, results)` and the logging of the
completion (`logger.error` or `logger.queryResult`) returns, then
`executeQuery` does what one invocation of the callback with that same
`error` and those same `results` does, after the logging; (2) if
`logger.query` throws `x` and the `logger.error` of the catch block returns,
or (3) if `logger.query` returns, `db.query` throws `x` and that
`logger.error` returns, then `executeQuery` does what one invocation of the
callback with `(x, null)` does; in all three cases it completes normally. -/
theorem executeQuery_passes_outcome_up (env : Env) (sql : String) (params : List JSValue)
    (callback : Option JSError → DbResult → Prog Unit)
    (hcallback : ∀ e results w0, ∃ w1, callback e results w0 = (.normal (), w1)) (w : World) :
    (∀ error results w1 w2,
      logger.query env sql params
        { w with gatewayCalls := w.gatewayCalls ++ [QueryCall.mk sql params] } = (.normal (), w1) →
      env.db sql params = .completes error results →
      (match error with
        | some error => logger.error env [.lit "Error en consulta SQL:"] error
        | none => logger.queryResult env results)
        { w1 with dbCalls := w1.dbCalls ++ [QueryCall.mk sql params] } = (.normal (), w2) →
      executeQuery env sql params callback w = callback error results w2 ∧
      (executeQuery env sql params callback w).1 = .normal ()) ∧
    (∀ x w1 w2,
      logger.query env sql params
        { w with gatewayCalls := w.gatewayCalls ++ [QueryCall.mk sql params] } = (.throw x, w1) →
      logger.error env [.lit "Error en executeQuery:"] x w1 = (.normal (), w2) →
      executeQuery env sql params callback w = callback (some x) .null w2 ∧
      (executeQuery env sql params callback w).1 = .normal ()) ∧
    (∀ x w1 w2,
      logger.query env sql params
        { w with gatewayCalls := w.gatewayCalls ++ [QueryCall.mk sql params] } = (.normal (), w1) →
      env.db sql params = .throws x →
      logger.error env [.lit "Error en executeQuery:"] x
        { w1 with dbCalls := w1.dbCalls ++ [QueryCall.mk sql params] } = (.normal (), w2) →
      executeQuery env sql params callback w = callback (some x) .null w2 ∧
      (executeQuery env sql params callback w).1 = .normal ()) := by
  have hnormal : ∀ {p : Completion Unit × World} {e results w0}, p = callback e results w0 →
      p = callback e results w0 ∧ p.1 = .normal () := by
    intro p e results w0 hp
    obtain ⟨w1, h1⟩ := hcallback e results w0
    exact ⟨hp, by rw [hp, h1]⟩
  refine ⟨?_, ?_, ?_⟩
  · intro error results w1 w2 hquery hdb hlog
    apply hnormal
    unfold executeQuery
    rw [Prog.bind_run]
    simp only [recordGatewayCall]
    rw [Prog.tryCatch_bind_normal hquery]
    unfold dbQuery
    rw [Prog.tryCatch_bind_normal (recordDbCall_run sql params _)]
    simp only [hdb]
    rw [Prog.tryCatch_deferred]
    obtain ⟨w3, h3⟩ := hcallback error results w2
    cases error with
    | none =>
      simp only [] at hlog ⊢
      rw [Prog.deferred_bind_normal hlog, Prog.deferred_of_normal h3]
    | some err =>
      simp only [] at hlog ⊢
      rw [Prog.deferred_bind_normal hlog, Prog.deferred_of_normal h3]
  · intro x w1 w2 hquery hlog
    apply hnormal
    unfold executeQuery
    rw [Prog.bind_run]
    simp only [recordGatewayCall]
    rw [Prog.tryCatch_bind_throw hquery, Prog.bind_run, hlog]
  · intro x w1 w2 hquery hdb hlog
    apply hnormal
    unfold executeQuery
    rw [Prog.bind_run]
    simp only [recordGatewayCall]
    rw [Prog.tryCatch_bind_normal hquery]
    unfold dbQuery
    rw [Prog.tryCatch_bind_normal (recordDbCall_run sql params _)]
    simp only [hdb]
    simp only [Prog.tryCatch, Prog.raise]
    rw [Prog.bind_run, hlog]

/-- **C10 (as amended).** For every body `b` handed to the wrapped
`res.send`, in any world. (1) When the console works, the wrapper does what
one invocation of the original send with that same `b` does, after the
response logger has written the line with the status code, followed by the
line with the body exactly when `b` is truthy, of type `object` and has at
least one key (a string body, such as the JSON text `res.json` passes, is
not written); and when `b` is a boolean, a number, an array or an object,
the original send comes back through the wrapper with the JSON text, so the
status line is written a second time. (2) When only `console.error` is known
to work, so whether or not `logger.response` throws, the wrapper still does
what one invocation of the original send with the same `b` does, with the
status code and what was sent before unchanged; it completes, and the
original send has run once with `b` and, for a boolean, number, array or
object `b`, once more with the JSON text of `b`. -/
theorem send_wrapper_logs_and_sends_once (env : Env) (b : JSValue) (w : World) :
    (env.reliableConsole →
      res.send env b w = originalSend env b { w with
        ticks := w.ticks + 1,
        console := w.console ++
          (⟨.out, stamp (env.now w.ticks) ++ [.lit "RESPONSE: ", .val (.ofNat w.statusCode),
              .lit " ", .val w.statusMessage], none⟩ ::
            (if b.truthy && b.typeOf == "object" && b.objectKeys.length > 0 then
              [⟨.out, stamp (env.now w.ticks) ++ [.lit "RESPONSE BODY:"], some (.value b)⟩]
            else [])) } ∧
      (res.send env b w).2.console = w.console ++
          (⟨.out, stamp (env.now w.ticks) ++ [.lit "RESPONSE: ", .val (.ofNat w.statusCode),
              .lit " ", .val w.statusMessage], none⟩ ::
            (if b.truthy && b.typeOf == "object" && b.objectKeys.length > 0 then
              [⟨.out, stamp (env.now w.ticks) ++ [.lit "RESPONSE BODY:"], some (.value b)⟩]
            else [])) ++
          (if b.sentAsJson then
            [⟨.out, stamp (env.now (w.ticks + 1)) ++ [.lit "RESPONSE: ",
              .val (.ofNat w.statusCode), .lit " ", .val w.statusMessage], none⟩]
          else [])) ∧
    (env.reliableConsoleError →
      (∃ w1, res.send env b w = originalSend env b w1 ∧ w1.sent = w.sent ∧
        w1.statusCode = w.statusCode) ∧
      (res.send env b w).1 = .normal () ∧
      (res.send env b w).2.sent = w.sent ++ ⟨w.statusCode, b⟩ ::
        (if b.sentAsJson then [⟨w.statusCode, jsonBody env b⟩] else [])) := by
  constructor
  · intro hc
    refine ⟨responseLoggingSend_run env hc _ b w, ?_⟩
    rw [res.send, responseLoggingSend_run env hc]
    by_cases hj : b.sentAsJson = true
    · simp only [originalSend, hj, if_true, Prog.bind_run, recordSend,
        responseLoggingSend_run env hc, responseLines_jsonBody]
      rfl
    · simp only [Bool.not_eq_true] at hj
      simp only [originalSend_plain env b hj, hj, Bool.false_eq_true, if_false,
        List.append_nil]
      rfl
  · intro herr
    obtain ⟨w1, h1, hsent1, hcode1⟩ := responseLoggingSend_err env herr (originalSend env) b w
    refine ⟨⟨w1, h1, hsent1, hcode1⟩, ?_⟩
    rw [res.send, h1]
    by_cases hj : b.sentAsJson = true
    · obtain ⟨w2, h2, hsent2, hcode2⟩ := responseLoggingSend_err env herr (originalSendPlain env)
        (jsonBody env b) { w1 with sent := w1.sent ++ [⟨w1.statusCode, b⟩] }
      simp only [originalSend, hj, if_true, Prog.bind_run, recordSend, h2]
      refine ⟨rfl, ?_⟩
      simp only [originalSendPlain, hsent2, hcode2, hsent1, hcode1]
      simp
    · simp only [Bool.not_eq_true] at hj
      simp only [originalSend_plain env b hj, hj, Bool.false_eq_true, if_false]
      exact ⟨rfl, by simp only [originalSendPlain, hsent1, hcode1]⟩

/-! ## The statements at concrete inputs -/

/-- C1 at a create whose `salario` is the number 0: no call, status 400. -/
theorem validation_failure_is_400_without_query_witness :
    Operation.create.readsBody = true ∧
    (JSValue.obj zeroSalaryBody).isNullish = false ∧
    "salario" ∈ requiredFields .empleados ∧
    (JSValue.lookup "salario" (fieldsOf (.obj zeroSalaryBody))).truthy = false ∧
    (route .empleados .create (sampleEnv (dbAnswering (.header insertedHeader)))
      ⟨"", .obj zeroSalaryBody⟩ World.init).2.gatewayCalls = [] ∧
    (route .empleados .create (sampleEnv (dbAnswering (.header insertedHeader)))
      ⟨"", .obj zeroSalaryBody⟩ World.init).2.sent = [⟨400, .str "json"⟩] :=
  ⟨rfl, rfl, by decide, rfl,
    (validation_failure_is_400_without_query (sampleEnv (dbAnswering (.header insertedHeader)))
      .empleados .create rfl ⟨"", .obj zeroSalaryBody⟩ rfl "salario" (by decide) rfl).1,
    ((validation_failure_is_400_without_query (sampleEnv (dbAnswering (.header insertedHeader)))
      .empleados .create rfl ⟨"", .obj zeroSalaryBody⟩ rfl "salario" (by decide) rfl).2.2
      (fun _ => rfl)).2⟩

/-- C2 at a delete on a store whose every statement fails. -/
theorem gateway_failure_is_500_witness :
    (sampleEnv (dbFailing timedOut)).reliableConsole ∧
    ((sampleEnv (dbFailing timedOut)).db (statement .clientes .delete)
      [.str "7"]).deliveredError = some timedOut ∧
    (route .clientes .delete (sampleEnv (dbFailing timedOut)) ⟨"7", .undefined⟩ World.init).2.sent =
      [⟨500, .str "json"⟩] :=
  ⟨fun _ => rfl, rfl,
    (gateway_failure_is_500 (sampleEnv (dbFailing timedOut)) (fun _ => rfl) .clientes .delete
      ⟨"7", .undefined⟩ (fun h => by cases h) timedOut rfl).2⟩

/-- C3 as stated fails: on a store whose select fails the list handler
answers 500, not 200. -/
theorem list_is_not_always_200 :
    statuses (route .empleados .list (sampleEnv (dbFailing timedOut)) ⟨"", .undefined⟩
      World.init) = [500] := by
  decide

/-- C3 as amended, on an empty table and on a failing store. -/
theorem list_is_200_with_rows_on_success_witness :
    (sampleEnv (dbAnswering (.rows []))).reliableConsole ∧
    (route .empleados .list (sampleEnv (dbAnswering (.rows []))) ⟨"", .undefined⟩
      World.init).2.sent = [⟨200, jsonBody (sampleEnv (dbAnswering (.rows []))) (.arr [])⟩] ∧
    (route .empleados .list (sampleEnv (dbFailing timedOut)) ⟨"", .undefined⟩
      World.init).2.sent =
      [⟨500, jsonBody (sampleEnv (dbFailing timedOut))
        (.obj [("error", .str "connect ETIMEDOUT")])⟩] :=
  ⟨fun _ => rfl,
    ((list_is_200_with_rows_on_success (sampleEnv (dbAnswering (.rows []))) (fun _ => rfl)
      .empleados ⟨"", .undefined⟩).1 [] rfl).2,
    ((list_is_200_with_rows_on_success (sampleEnv (dbFailing timedOut)) (fun _ => rfl)
      .empleados ⟨"", .undefined⟩).2 timedOut rfl).2⟩

/-- C4 on a store that finds no row. -/
theorem get_by_id_is_404_iff_no_row_witness :
    (sampleEnv (dbAnswering (.rows []))).reliableConsole ∧
    (route .proveedores .get (sampleEnv (dbAnswering (.rows []))) ⟨"99", .undefined⟩
      World.init).2.sent = [⟨404, .str "json"⟩] :=
  ⟨fun _ => rfl,
    (get_by_id_is_404_iff_no_row (sampleEnv (dbAnswering (.rows []))) (fun _ => rfl) .proveedores
      ⟨"99", .undefined⟩ [] rfl).2.1 rfl⟩

/-- C5 on a delete that affects one row. -/
theorem update_delete_is_404_iff_no_affected_row_witness :
    (sampleEnv (dbAnswering (.header insertedHeader))).reliableConsole ∧
    insertedHeader.affectedRows ≠ 0 ∧
    (route .empleados .delete (sampleEnv (dbAnswering (.header insertedHeader)))
      ⟨"1", .undefined⟩ World.init).2.sent = [⟨200, .str "json"⟩] :=
  ⟨fun _ => rfl, by decide,
    (update_delete_is_404_iff_no_affected_row (sampleEnv (dbAnswering (.header insertedHeader)))
      (fun _ => rfl) .empleados .delete (.inr rfl) ⟨"1", .undefined⟩ (fun h => by cases h)
      insertedHeader rfl).2.2.1 (by decide)⟩

/-- C6 on a valid employee body whose insert generates the key 42. -/
theorem create_is_201_with_insert_id_witness :
    (sampleEnv (dbAnswering (.header insertedHeader))).reliableConsole ∧
    validBody .empleados (.obj anaBody) = true ∧
    (route .empleados .create (sampleEnv (dbAnswering (.header insertedHeader)))
      ⟨"", .obj anaBody⟩ World.init).2.sent =
      [⟨201, jsonBody (sampleEnv (dbAnswering (.header insertedHeader)))
        (.obj [("mensaje", .str "Empleado agregado"), ("id", .ofNat 42)])⟩] :=
  ⟨fun _ => rfl, by decide,
    (create_is_201_with_insert_id (sampleEnv (dbAnswering (.header insertedHeader)))
      (fun _ => rfl) .empleados ⟨"", .obj anaBody⟩ (by decide) insertedHeader
      rfl).2⟩

/-- C7 on a client body without `email_cliente`: the fourth parameter of the
insert is `null`. -/
theorem client_email_parameter_defaults_to_null_witness :
    validBody .clientes (.obj clientBody) = true ∧
    ∃ email,
      (route .clientes .create (sampleEnv (dbAnswering (.header insertedHeader)))
        ⟨"", .obj clientBody⟩ World.init).2.gatewayCalls =
        [⟨"INSERT INTO clientes (numero_identificacion, nombre_cliente, telefono_cliente, email_cliente) VALUES (?, ?, ?, ?)",
          [.str "123", .str "X", .str "555", email]⟩] ∧
      email = .null :=
  ⟨by decide,
    (client_email_parameter_defaults_to_null (sampleEnv (dbAnswering (.header insertedHeader))) ""
      clientBody (by decide)).elim
      (fun email h => ⟨email, h.1, h.2.2.1 (by decide)⟩)⟩

/-- C9 as stated fails. First, on a console that throws on every call:
`logger.query` throws `boom`, the `logger.error` of the catch block throws
too, and `executeQuery` throws without having invoked its callback. Second,
on a console that throws when it is given a row array: `db.query` completes
with `(null, rows)`, `logger.queryResult` throws inside the completion
callback, and the callback of `executeQuery` is never invoked. -/
theorem executeQuery_can_throw_or_drop_the_outcome :
    ((logger.query (brokenConsoleEnv (dbAnswering (.rows []))) "SELECT * FROM empleados" []
        { World.init with gatewayCalls := [⟨"SELECT * FROM empleados", []⟩] }).1 = .throw boom ∧
      (executeQuery (brokenConsoleEnv (dbAnswering (.rows []))) "SELECT * FROM empleados" []
        (probe (brokenConsoleEnv (dbAnswering (.rows [])))) World.init).1 = .throw boom ∧
      (executeQuery (brokenConsoleEnv (dbAnswering (.rows []))) "SELECT * FROM empleados" []
        (probe (brokenConsoleEnv (dbAnswering (.rows [])))) World.init).2.sent = []) ∧
    ((brokenInspectEnv (dbAnswering (.rows [anaRow]))).db "SELECT * FROM empleados" [] =
        .completes none (.rows [anaRow]) ∧
      (executeQuery (brokenInspectEnv (dbAnswering (.rows [anaRow]))) "SELECT * FROM empleados" []
        (probe (brokenInspectEnv (dbAnswering (.rows [anaRow])))) World.init).2.sent = [] ∧
      (executeQuery (brokenInspectEnv (dbAnswering (.rows [anaRow]))) "SELECT * FROM empleados" []
        (probe (brokenInspectEnv (dbAnswering (.rows [anaRow])))) World.init).2.uncaught =
        [boom]) :=
  ⟨⟨rfl, rfl, rfl⟩, rfl, rfl, rfl⟩

/-- C9 as amended, on a working console with a store that answers, and on a
console whose `console.log` throws while `console.error` works. -/
theorem executeQuery_passes_outcome_up_witness :
    (∀ e results w0, ∃ w1,
      probe (sampleEnv (dbAnswering (.rows [anaRow]))) e results w0 = (.normal (), w1)) ∧
    (executeQuery (sampleEnv (dbAnswering (.rows [anaRow]))) "SELECT * FROM empleados" []
      (probe (sampleEnv (dbAnswering (.rows [anaRow])))) World.init).2.sent =
      [⟨200, .arr [.null, .arr [anaRow]]⟩] ∧
    (executeQuery (brokenLogEnv (dbAnswering (.rows [anaRow]))) "SELECT * FROM empleados" []
      (probe (sampleEnv (dbAnswering (.rows [anaRow])))) World.init).2.sent =
      [⟨200, .arr [.str "boom", .null]⟩] :=
  ⟨fun _ _ _ => ⟨_, rfl⟩,
    congrArg (fun out => out.2.sent)
      ((executeQuery_passes_outcome_up (sampleEnv (dbAnswering (.rows [anaRow])))
        "SELECT * FROM empleados" [] (probe (sampleEnv (dbAnswering (.rows [anaRow]))))
        (fun _ _ _ => ⟨_, rfl⟩) World.init).1 none (.rows [anaRow]) _ _ rfl rfl rfl).1,
    congrArg (fun out => out.2.sent)
      ((executeQuery_passes_outcome_up (brokenLogEnv (dbAnswering (.rows [anaRow])))
        "SELECT * FROM empleados" [] (probe (sampleEnv (dbAnswering (.rows [anaRow]))))
        (fun _ _ _ => ⟨_, rfl⟩) World.init).2.1 boom _ _ rfl rfl).1⟩

/-- C10 as stated fails. First, on a working console: a non-empty string
body, the JSON text `res.json` hands over, is not written to the log (the
only line written is the status line, which has no second argument).
Second, on a console that throws on every call: nothing is written, not
even the status code, the wrapper throws, and the original send is not
invoked. Third, on a working console with an object body: the original send
runs twice, with the object and then with its JSON text, and the status
line is written twice. -/
theorem send_wrapper_skips_string_bodies_and_can_throw :
    (jsonTextBody.truthy = true ∧
      (res.send (sampleEnv (dbAnswering (.rows []))) jsonTextBody World.init).2.console.map
        (fun entry => entry.extra.isSome) = [false]) ∧
    ((res.send (brokenConsoleEnv (dbAnswering (.rows []))) jsonTextBody World.init).1 =
        .throw boom ∧
      (res.send (brokenConsoleEnv (dbAnswering (.rows []))) jsonTextBody World.init).2.console.length
        = 0 ∧
      (res.send (brokenConsoleEnv (dbAnswering (.rows []))) jsonTextBody World.init).2.sent =
        []) ∧
    ((res.send (sampleEnv (dbAnswering (.rows []))) anaRow World.init).2.sent =
        [⟨200, anaRow⟩, ⟨200, .str "json"⟩] ∧
      (res.send (sampleEnv (dbAnswering (.rows []))) anaRow World.init).2.console.map
        (fun entry => entry.extra.isSome) = [false, true, false]) :=
  ⟨⟨by decide, by decide⟩, ⟨rfl, by decide, rfl⟩, rfl, by decide⟩

/-- C10 as amended: an object body is written to the log on a working
console and the status line comes twice; a string body is sent once when
`console.log` throws, and an object body once as it is and once as text. -/
theorem send_wrapper_logs_and_sends_once_witness :
    (sampleEnv (dbAnswering (.rows []))).reliableConsole ∧
    (brokenLogEnv (dbAnswering (.rows []))).reliableConsoleError ∧
    (res.send (sampleEnv (dbAnswering (.rows []))) anaRow World.init).2.console.map
      (fun entry => entry.extra.isSome) = [false, true, false] ∧
    (res.send (brokenLogEnv (dbAnswering (.rows []))) jsonTextBody World.init).2.sent =
      [⟨200, jsonTextBody⟩] ∧
    (res.send (brokenLogEnv (dbAnswering (.rows []))) anaRow World.init).2.sent =
      [⟨200, anaRow⟩, ⟨200, .str "json"⟩] :=
  ⟨fun _ => rfl, fun entry h => by cases entry; cases h; rfl,
    congrArg (fun console => console.map (fun entry => entry.extra.isSome))
      ((send_wrapper_logs_and_sends_once (sampleEnv (dbAnswering (.rows []))) anaRow
        World.init).1 (fun _ => rfl)).2,
    ((send_wrapper_logs_and_sends_once (brokenLogEnv (dbAnswering (.rows []))) jsonTextBody
      World.init).2 (fun entry h => by cases entry; cases h; rfl)).2.2,
    ((send_wrapper_logs_and_sends_once (brokenLogEnv (dbAnswering (.rows []))) anaRow
      World.init).2 (fun entry h => by cases entry; cases h; rfl)).2.2⟩

end ApiRest
